import Mathlib

/-!
Verification of the dimension-key resolution and fact-replacement engine of
`scripts/import_meta_csv.py` (incremental load of advertising records into a
star schema on SQL Server).

The script is shallowly embedded: the relational store is a record of lists
(one per table, plus the IDENTITY counters the `OUTPUT INSERTED.*` clauses
read), every `cur.execute` first consults a failure oracle modelling the
possibility that the underlying storage raises `pyodbc.Error`, and the
`autocommit=False` transaction of each record is modelled by only publishing
the mutated store on `conn.commit()`.  `SELECT ... WHERE Col = ?` uses SQL
three-valued equality, under which a NULL parameter or a NULL column value
matches nothing (`ANSI_NULLS ON`, the SQL Server default).  A missing or
unparseable `FullDate` (pandas `NaT`) makes `full_date.strftime` raise a
Python `ValueError`, which is not a `pyodbc.Error`; the embedding keeps the
two kinds of exception apart because `main` only catches the latter.
-/

/-- The thirteen measure columns of `fact_Metrics`, copied verbatim from the
input row into the insert.  The loader never computes with them, so their
carrier is irrelevant; we use `Int`. -/
structure Measures where
  spend : Int
  impressions : Int
  reach : Int
  clicks : Int
  purchases : Int
  purchaseValue : Int
  videoPlays25 : Int
  videoPlays50 : Int
  videoPlays75 : Int
  videoPlays95 : Int
  videoPlays100 : Int
  results : Int
  costPerResult : Int
deriving DecidableEq

/-- A calendar date as `datetime` exposes it: year/month/day plus
`weekday()` (0 = Monday). -/
structure Date where
  year : Nat
  month : Nat
  day : Nat
  weekday : Nat
deriving DecidableEq

/-- A row of `dim_Clients`. -/
structure ClientRow where
  clientID : Nat
  accountFBID : Int
  clientName : Option String
deriving DecidableEq

/-- A row of `dim_Campaigns`. -/
structure CampaignRow where
  campaignID : Nat
  clientID : Nat
  campaignFBID : Int
  campaignName : Option String
  objective : Option String
deriving DecidableEq

/-- A row of `dim_AdSets`. -/
structure AdSetRow where
  adSetID : Nat
  campaignID : Nat
  adSetFBID : Int
  adSetName : Option String
deriving DecidableEq

/-- A row of `dim_Ads`. -/
structure AdRow where
  adID : Nat
  adSetID : Nat
  adFBID : Int
  adName : Option String
  adBody : Option String
  adThumbnailURL : Option String
  permanentLink : Option String
deriving DecidableEq

/-- A row of `dim_Date`. -/
structure DateRow where
  dateID : Nat
  fullDate : Date
  year : Nat
  month : Nat
  day : Nat
  dayOfWeek : Nat
deriving DecidableEq

/-- A row of `dim_Demographics`. -/
structure DemographicRow where
  demographicID : Nat
  ageBracket : Option String
  gender : Option String
deriving DecidableEq

/-- A row of `dim_Placements`. -/
structure PlacementRow where
  placementID : Nat
  platform : Option String
  device : Option String
  position : Option String
deriving DecidableEq

/-- A row of `fact_Metrics`: the grain key, the denormalized foreign keys and
the measures. -/
structure FactRow where
  dateID : Nat
  clientID : Nat
  campaignID : Nat
  adSetID : Nat
  adID : Nat
  demographicID : Nat
  placementID : Nat
  measures : Measures
deriving DecidableEq

/-- The warehouse: the seven dimension tables, the fact table, and the next
IDENTITY value of each surrogate-keyed dimension (`dim_Date` has an explicit
key and no counter). -/
structure Db where
  clients : List ClientRow
  campaigns : List CampaignRow
  adSets : List AdSetRow
  ads : List AdRow
  dates : List DateRow
  demographics : List DemographicRow
  placements : List PlacementRow
  facts : List FactRow
  nextClientID : Nat
  nextCampaignID : Nat
  nextAdSetID : Nat
  nextAdID : Nat
  nextDemographicID : Nat
  nextPlacementID : Nat
deriving DecidableEq

/-- One input row as `df.itertuples` exposes it.  `FullDate` is `none` when
the CSV cell was missing or unparseable (pandas `NaT`). -/
structure Record where
  FullDate : Option Date
  AccountFBID : Int
  ClientName : Option String
  CampaignFBID : Int
  CampaignName : Option String
  Objective : Option String
  AdSetFBID : Int
  AdSetName : Option String
  AdFBID : Int
  AdName : Option String
  AdBody : Option String
  AdThumbnailURL : Option String
  PermanentLink : Option String
  AgeBracket : Option String
  Gender : Option String
  Platform : Option String
  Device : Option String
  Position : Option String
  measures : Measures
deriving DecidableEq

/-- The SQL statements the script executes, with their parameters; the
failure oracle is indexed by these. -/
inductive SqlOp where
  | selectClient (accountFBID : Int)
  | insertClient (accountFBID : Int) (name : Option String)
  | selectCampaign (campaignFBID : Int)
  | insertCampaign (clientID : Nat) (campaignFBID : Int) (name objective : Option String)
  | selectAdSet (adSetFBID : Int)
  | insertAdSet (campaignID : Nat) (adSetFBID : Int) (name : Option String)
  | selectAd (adFBID : Int)
  | insertAd (adSetID : Nat) (adFBID : Int) (name body thumbnailURL link : Option String)
  | selectDate (dateID : Nat)
  | insertDate (dateID : Nat) (fd : Date)
  | selectDemographic (ageBracket gender : Option String)
  | insertDemographic (ageBracket gender : Option String)
  | selectPlacement (platform device pos : Option String)
  | insertPlacement (platform device pos : Option String)
  | deleteFacts (dateID adID demographicID placementID : Nat)
  | insertFact (f : FactRow)

/-- The exceptions the script can see per record: a `pyodbc.Error` raised by
the store (with the store's payload), or a Python-level `ValueError` such as
`NaT.strftime` raises on a missing date. -/
inductive Err where
  | dbErr (e : Nat)
  | valueErr
deriving DecidableEq

/-- Decidable equality of `Except` results, so that concrete runs can be
checked by `decide`. -/
instance {ε α : Type} [DecidableEq ε] [DecidableEq α] : DecidableEq (Except ε α) := fun x y =>
  match x, y with
  | .ok a, .ok b =>
    if h : a = b then isTrue (by rw [h]) else isFalse (by intro hh; cases hh; exact h rfl)
  | .error a, .error b =>
    if h : a = b then isTrue (by rw [h]) else isFalse (by intro hh; cases hh; exact h rfl)
  | .ok _, .error _ => isFalse (by intro hh; cases hh)
  | .error _, .ok _ => isFalse (by intro hh; cases hh)

/-- A failure oracle: for each executed statement, `some e` when the store
raises `pyodbc.Error` with payload `e`, `none` when it succeeds. -/
def Oracle : Type := SqlOp → Option Nat

/-- SQL three-valued equality of a nullable column against a nullable
parameter, as a row filter: a NULL on either side selects nothing. -/
def sqlEqStr (a b : Option String) : Bool :=
  match a, b with
  | some x, some y => x == y
  | _, _ => false

/-- Python `int` applied to a string of decimal digits, digit by digit. -/
def pyIntOfDigits (ds : List Nat) : Nat :=
  ds.foldl (fun a d => a * 10 + d) 0

/-- The digits `strftime` produces for `%Y` (the year, up to the 9999 of
`datetime.MAXYEAR`). -/
def yearDigits (y : Nat) : List Nat :=
  if y < 10 then [y]
  else if y < 100 then [y / 10, y % 10]
  else if y < 1000 then [y / 100, y / 10 % 10, y % 10]
  else [y / 1000, y / 100 % 10, y / 10 % 10, y % 10]

/-- The two zero-padded digits `strftime` produces for `%m` and `%d`. -/
def pad2 (n : Nat) : List Nat :=
  [n / 10, n % 10]

/-- Embeds `int(full_date.strftime("%Y%m%d"))`. -/
def dateKey (d : Date) : Nat :=
  pyIntOfDigits (yearDigits d.year ++ pad2 d.month ++ pad2 d.day)

/-- Embeds `get_or_create_client`: look up `dim_Clients` by `AccountFBID`,
return the existing `ClientID` or insert and return the generated key. -/
def get_or_create_client (o : Oracle) (db : Db) (account_fbid : Int)
    (name : Option String) : Except Err (Nat × Db) :=
  match o (SqlOp.selectClient account_fbid) with
  | some e => .error (.dbErr e)
  | none =>
    match db.clients.find? (fun r => r.accountFBID == account_fbid) with
    | some r => .ok (r.clientID, db)
    | none =>
      match o (SqlOp.insertClient account_fbid name) with
      | some e => .error (.dbErr e)
      | none =>
        .ok (db.nextClientID,
          { db with
            clients := db.clients ++
              [{ clientID := db.nextClientID, accountFBID := account_fbid,
                 clientName := name }],
            nextClientID := db.nextClientID + 1 })

/-- Embeds `get_or_create_campaign`: the lookup is by `CampaignFBID` alone;
`client_id` and the attributes are only used when inserting. -/
def get_or_create_campaign (o : Oracle) (db : Db) (client_id : Nat)
    (campaign_fbid : Int) (name objective : Option String) :
    Except Err (Nat × Db) :=
  match o (SqlOp.selectCampaign campaign_fbid) with
  | some e => .error (.dbErr e)
  | none =>
    match db.campaigns.find? (fun r => r.campaignFBID == campaign_fbid) with
    | some r => .ok (r.campaignID, db)
    | none =>
      match o (SqlOp.insertCampaign client_id campaign_fbid name objective) with
      | some e => .error (.dbErr e)
      | none =>
        .ok (db.nextCampaignID,
          { db with
            campaigns := db.campaigns ++
              [{ campaignID := db.nextCampaignID, clientID := client_id,
                 campaignFBID := campaign_fbid, campaignName := name,
                 objective := objective }],
            nextCampaignID := db.nextCampaignID + 1 })

/-- Embeds `get_or_create_adset`: lookup by `AdSetFBID` alone. -/
def get_or_create_adset (o : Oracle) (db : Db) (campaign_id : Nat)
    (adset_fbid : Int) (name : Option String) : Except Err (Nat × Db) :=
  match o (SqlOp.selectAdSet adset_fbid) with
  | some e => .error (.dbErr e)
  | none =>
    match db.adSets.find? (fun r => r.adSetFBID == adset_fbid) with
    | some r => .ok (r.adSetID, db)
    | none =>
      match o (SqlOp.insertAdSet campaign_id adset_fbid name) with
      | some e => .error (.dbErr e)
      | none =>
        .ok (db.nextAdSetID,
          { db with
            adSets := db.adSets ++
              [{ adSetID := db.nextAdSetID, campaignID := campaign_id,
                 adSetFBID := adset_fbid, adSetName := name }],
            nextAdSetID := db.nextAdSetID + 1 })

/-- Embeds `get_or_create_ad`: lookup by `AdFBID` alone. -/
def get_or_create_ad (o : Oracle) (db : Db) (adset_id : Nat) (ad_fbid : Int)
    (name body thumbnail_url permanent_link : Option String) :
    Except Err (Nat × Db) :=
  match o (SqlOp.selectAd ad_fbid) with
  | some e => .error (.dbErr e)
  | none =>
    match db.ads.find? (fun r => r.adFBID == ad_fbid) with
    | some r => .ok (r.adID, db)
    | none =>
      match o (SqlOp.insertAd adset_id ad_fbid name body thumbnail_url permanent_link) with
      | some e => .error (.dbErr e)
      | none =>
        .ok (db.nextAdID,
          { db with
            ads := db.ads ++
              [{ adID := db.nextAdID, adSetID := adset_id, adFBID := ad_fbid,
                 adName := name, adBody := body,
                 adThumbnailURL := thumbnail_url,
                 permanentLink := permanent_link }],
            nextAdID := db.nextAdID + 1 })

/-- Embeds `get_or_create_date`.  `full_date = none` models a pandas `NaT`,
on which `strftime` raises a `ValueError` before any SQL runs; otherwise the
key is derived, its existence checked, and the row inserted when absent. -/
def get_or_create_date (o : Oracle) (db : Db) (full_date : Option Date) :
    Except Err (Nat × Db) :=
  match full_date with
  | none => .error .valueErr
  | some fd =>
    match o (SqlOp.selectDate (dateKey fd)) with
    | some e => .error (.dbErr e)
    | none =>
      match db.dates.find? (fun r => r.dateID == dateKey fd) with
      | some _ => .ok (dateKey fd, db)
      | none =>
        match o (SqlOp.insertDate (dateKey fd) fd) with
        | some e => .error (.dbErr e)
        | none =>
          .ok (dateKey fd,
            { db with
              dates := db.dates ++
                [{ dateID := dateKey fd, fullDate := fd, year := fd.year,
                   month := fd.month, day := fd.day,
                   dayOfWeek := fd.weekday + 1 }] })

/-- Embeds `get_or_create_demographic`: composite lookup under SQL null
semantics (`AgeBracket = ? AND Gender = ?`). -/
def get_or_create_demographic (o : Oracle) (db : Db)
    (age_bracket gender : Option String) : Except Err (Nat × Db) :=
  match o (SqlOp.selectDemographic age_bracket gender) with
  | some e => .error (.dbErr e)
  | none =>
    match db.demographics.find?
        (fun r => sqlEqStr r.ageBracket age_bracket && sqlEqStr r.gender gender) with
    | some r => .ok (r.demographicID, db)
    | none =>
      match o (SqlOp.insertDemographic age_bracket gender) with
      | some e => .error (.dbErr e)
      | none =>
        .ok (db.nextDemographicID,
          { db with
            demographics := db.demographics ++
              [{ demographicID := db.nextDemographicID,
                 ageBracket := age_bracket, gender := gender }],
            nextDemographicID := db.nextDemographicID + 1 })

/-- Embeds `get_or_create_placement`: three-field composite lookup under SQL
null semantics. -/
def get_or_create_placement (o : Oracle) (db : Db)
    (platform device pos : Option String) : Except Err (Nat × Db) :=
  match o (SqlOp.selectPlacement platform device pos) with
  | some e => .error (.dbErr e)
  | none =>
    match db.placements.find?
        (fun r => sqlEqStr r.platform platform && sqlEqStr r.device device &&
          sqlEqStr r.position pos) with
    | some r => .ok (r.placementID, db)
    | none =>
      match o (SqlOp.insertPlacement platform device pos) with
      | some e => .error (.dbErr e)
      | none =>
        .ok (db.nextPlacementID,
          { db with
            placements := db.placements ++
              [{ placementID := db.nextPlacementID, platform := platform,
                 device := device, position := pos }],
            nextPlacementID := db.nextPlacementID + 1 })

/-- The grain-key filter of the `DELETE FROM fact_Metrics` statement. -/
def grainEq (f : FactRow) (dateID adID demographicID placementID : Nat) : Bool :=
  f.dateID == dateID && f.adID == adID && f.demographicID == demographicID &&
    f.placementID == placementID

/-- Embeds `process_row`: resolve the seven dimension keys in the source's
order, delete the fact rows at the resolved grain, insert the fresh fact row.
All mutations happen on the working (uncommitted) state. -/
def process_row (o : Oracle) (db : Db) (row : Record) : Except Err Db :=
  match get_or_create_date o db row.FullDate with
  | .error e => .error e
  | .ok (date_id, db) =>
    match get_or_create_client o db row.AccountFBID row.ClientName with
    | .error e => .error e
    | .ok (client_id, db) =>
      match get_or_create_campaign o db client_id row.CampaignFBID row.CampaignName row.Objective with
      | .error e => .error e
      | .ok (campaign_id, db) =>
        match get_or_create_adset o db campaign_id row.AdSetFBID row.AdSetName with
        | .error e => .error e
        | .ok (adset_id, db) =>
          match get_or_create_ad o db adset_id row.AdFBID row.AdName row.AdBody row.AdThumbnailURL row.PermanentLink with
          | .error e => .error e
          | .ok (ad_id, db) =>
            match get_or_create_demographic o db row.AgeBracket row.Gender with
            | .error e => .error e
            | .ok (demographic_id, db) =>
              match get_or_create_placement o db row.Platform row.Device row.Position with
              | .error e => .error e
              | .ok (placement_id, db) =>
                match o (SqlOp.deleteFacts date_id ad_id demographic_id placement_id) with
                | some e => .error (.dbErr e)
                | none =>
                  let db := { db with
                    facts := db.facts.filter
                      (fun f => !(grainEq f date_id ad_id demographic_id placement_id)) }
                  let newFact : FactRow :=
                    { dateID := date_id, clientID := client_id,
                      campaignID := campaign_id, adSetID := adset_id,
                      adID := ad_id, demographicID := demographic_id,
                      placementID := placement_id, measures := row.measures }
                  match o (SqlOp.insertFact newFact) with
                  | some e => .error (.dbErr e)
                  | none => .ok { db with facts := db.facts ++ [newFact] }

/-- The console lines of `main`'s per-record loop that the claims are about:
the per-row progress line, the per-row error line (position and the caught
`pyodbc.Error`), and the fixed final line. -/
inductive Msg where
  | procesando (idx total : Nat)
  | errorEnFila (idx : Nat) (e : Nat)
  | importacionCompletada
deriving DecidableEq

/-- Embeds `main`'s `for` loop over `df.itertuples` with `enumerate(...,
start=1)`.  A successful `process_row` is followed by `conn.commit()`, which
publishes the working state; a `pyodbc.Error` is caught, `conn.rollback()`
discards the record's work and the loop continues; any other exception (the
`ValueError` of a missing date) is uncaught, so the loop stops there and the
record's uncommitted work is discarded.  Returns the committed store, the
printed lines, and the escaped exception if any. -/
def runLoop (o : Oracle) (total : Nat) : Nat → Db → List Record →
    Db × List Msg × Option Err
  | _, db, [] => (db, [], none)
  | idx, db, row :: rest =>
    match process_row o db row with
    | .ok db' =>
      let r := runLoop o total (idx + 1) db' rest
      (r.1, Msg.procesando idx total :: r.2.1, r.2.2)
    | .error (.dbErr e) =>
      let r := runLoop o total (idx + 1) db rest
      (r.1, Msg.procesando idx total :: Msg.errorEnFila idx e :: r.2.1, r.2.2)
    | .error .valueErr => (db, [Msg.procesando idx total], some Err.valueErr)

/-- Embeds `main` from the cursor creation on: run the loop over all records
and, when no exception escaped, print the fixed completion line. -/
def mainImport (o : Oracle) (db : Db) (rows : List Record) :
    Db × List Msg × Option Err :=
  let r := runLoop o rows.length 1 db rows
  (r.1, r.2.1 ++ (match r.2.2 with | none => [Msg.importacionCompletada] | some _ => []), r.2.2)

/-- A store that never fails. -/
def okOracle : Oracle := fun _ => none

/-- A store that fails exactly the fact-table insert, with payload 3: the
fault hits after the grain delete and before the replacement insert. -/
def failFactInsert : Oracle := fun op =>
  match op with
  | SqlOp.insertFact _ => some 3
  | _ => none

/-- A store that fails exactly the `dim_Clients` lookup, with payload 7. -/
def failClientSelect : Oracle := fun op =>
  match op with
  | SqlOp.selectClient _ => some 7
  | _ => none

/-- A store that fails exactly the `dim_Campaigns` lookup, with the same
payload 7. -/
def failCampaignSelect : Oracle := fun op =>
  match op with
  | SqlOp.selectCampaign _ => some 7
  | _ => none

/-- All-zero measures. -/
def m0 : Measures := ⟨0, 0, 0, 0, 0, 0, 0, 0, 0, 0, 0, 0, 0⟩

/-- Measures with spend 100. -/
def mA : Measures := { m0 with spend := 100 }

/-- Measures with spend 150. -/
def mB : Measures := { m0 with spend := 150 }

/-- The calendar date 2024-03-07 (a Thursday, `weekday() = 3`). -/
def d1 : Date := ⟨2024, 3, 7, 3⟩

/-- The empty warehouse. -/
def db0 : Db := ⟨[], [], [], [], [], [], [], [], 1, 1, 1, 1, 1, 1⟩

/-- A fully populated record with spend 100. -/
def r1 : Record :=
  { FullDate := some d1, AccountFBID := 1, ClientName := none,
    CampaignFBID := 10, CampaignName := none, Objective := none,
    AdSetFBID := 20, AdSetName := none,
    AdFBID := 30, AdName := none, AdBody := none, AdThumbnailURL := none,
    PermanentLink := none,
    AgeBracket := some "25-34", Gender := some "male",
    Platform := some "facebook", Device := some "mobile",
    Position := some "feed", measures := mA }

/-- The same record re-imported with spend 150. -/
def r1b : Record := { r1 with measures := mB }

/-- A record sharing `r1`'s `CampaignFBID` under a different client, with its
own ad set and ad. -/
def r2 : Record := { r1 with AccountFBID := 2, AdSetFBID := 21, AdFBID := 31 }

/-- A record whose date cell was missing or unparseable (pandas `NaT`). -/
def rBad : Record := { r1 with FullDate := none }

/-- The fact row `r1` produces on the empty warehouse. -/
def fact1ex : FactRow :=
  { dateID := 20240307, clientID := 1, campaignID := 1, adSetID := 1,
    adID := 1, demographicID := 1, placementID := 1, measures := mA }

/-- The warehouse after importing `r1` into the empty warehouse. -/
def db1ex : Db :=
  { clients := [{ clientID := 1, accountFBID := 1, clientName := none }],
    campaigns := [{ campaignID := 1, clientID := 1, campaignFBID := 10,
                    campaignName := none, objective := none }],
    adSets := [{ adSetID := 1, campaignID := 1, adSetFBID := 20,
                 adSetName := none }],
    ads := [{ adID := 1, adSetID := 1, adFBID := 30, adName := none,
              adBody := none, adThumbnailURL := none, permanentLink := none }],
    dates := [{ dateID := 20240307, fullDate := d1, year := 2024, month := 3,
                day := 7, dayOfWeek := 4 }],
    demographics := [{ demographicID := 1, ageBracket := some "25-34",
                       gender := some "male" }],
    placements := [{ placementID := 1, platform := some "facebook",
                     device := some "mobile", position := some "feed" }],
    facts := [fact1ex],
    nextClientID := 2, nextCampaignID := 2, nextAdSetID := 2, nextAdID := 2,
    nextDemographicID := 2, nextPlacementID := 2 }

/-- The warehouse after re-importing `r1b` into `db1ex`: the single fact row
now carries spend 150. -/
def db2ex : Db := { db1ex with facts := [{ fact1ex with measures := mB }] }

/-- The fact-replacement contract at a resolved grain: the fact table equals
its old content minus the grain's rows plus the one fresh row carrying the
record's measures verbatim; exactly one row of the grain remains; rows of
every other grain are untouched. -/
def FactReplaceSpec (db : Db) (row : Record) (db' : Db) : Prop :=
  ∃ dId cId cpId asId aId dmId pId : Nat,
    db'.facts = db.facts.filter (fun f => !(grainEq f dId aId dmId pId)) ++
      [{ dateID := dId, clientID := cId, campaignID := cpId, adSetID := asId,
         adID := aId, demographicID := dmId, placementID := pId,
         measures := row.measures }] ∧
    db'.facts.countP (fun f => grainEq f dId aId dmId pId) = 1 ∧
    ∀ f : FactRow, grainEq f dId aId dmId pId = false →
      (f ∈ db'.facts ↔ f ∈ db.facts)

/-- The warehouse after one all-NULL demographic resolution on the empty
warehouse. -/
def dbDemo1 : Db :=
  { db0 with
    demographics := [{ demographicID := 1, ageBracket := none, gender := none }],
    nextDemographicID := 2 }

/-- The warehouse after a second all-NULL demographic resolution: a duplicate
row. -/
def dbDemo2 : Db :=
  { dbDemo1 with
    demographics := [{ demographicID := 1, ageBracket := none, gender := none },
      { demographicID := 2, ageBracket := none, gender := none }],
    nextDemographicID := 3 }

/-- Idempotent resolution statement for `dim_Clients`. -/
@[reducible] def ResolveIdemClient : Prop :=
  ∀ (o o2 : Oracle) (db db1 db2st db2 : Db) (a : Int) (n1 n2 : Option String)
    (k1 k2 : Nat),
    db.clients.countP (fun r => r.accountFBID == a) ≤ 1 →
    get_or_create_client o db a n1 = .ok (k1, db1) →
    db2st.clients = db1.clients →
    get_or_create_client o2 db2st a n2 = .ok (k2, db2) →
    k1 = k2 ∧ db2 = db2st ∧
    (db1.clients = db.clients ∨
      db1.clients = db.clients ++
        [{ clientID := k1, accountFBID := a, clientName := n1 }]) ∧
    db1.clients.countP (fun r => r.accountFBID == a) ≤ 1

/-- Idempotent resolution statement for `dim_Campaigns`. -/
@[reducible] def ResolveIdemCampaign : Prop :=
  ∀ (o o2 : Oracle) (db db1 db2st db2 : Db) (cid1 cid2 : Nat) (a : Int)
    (n1 n2 ob1 ob2 : Option String) (k1 k2 : Nat),
    db.campaigns.countP (fun r => r.campaignFBID == a) ≤ 1 →
    get_or_create_campaign o db cid1 a n1 ob1 = .ok (k1, db1) →
    db2st.campaigns = db1.campaigns →
    get_or_create_campaign o2 db2st cid2 a n2 ob2 = .ok (k2, db2) →
    k1 = k2 ∧ db2 = db2st ∧
    (db1.campaigns = db.campaigns ∨
      db1.campaigns = db.campaigns ++
        [{ campaignID := k1, clientID := cid1, campaignFBID := a,
           campaignName := n1, objective := ob1 }]) ∧
    db1.campaigns.countP (fun r => r.campaignFBID == a) ≤ 1

/-- Idempotent resolution statement for `dim_AdSets`. -/
@[reducible] def ResolveIdemAdSet : Prop :=
  ∀ (o o2 : Oracle) (db db1 db2st db2 : Db) (cid1 cid2 : Nat) (a : Int)
    (n1 n2 : Option String) (k1 k2 : Nat),
    db.adSets.countP (fun r => r.adSetFBID == a) ≤ 1 →
    get_or_create_adset o db cid1 a n1 = .ok (k1, db1) →
    db2st.adSets = db1.adSets →
    get_or_create_adset o2 db2st cid2 a n2 = .ok (k2, db2) →
    k1 = k2 ∧ db2 = db2st ∧
    (db1.adSets = db.adSets ∨
      db1.adSets = db.adSets ++
        [{ adSetID := k1, campaignID := cid1, adSetFBID := a,
           adSetName := n1 }]) ∧
    db1.adSets.countP (fun r => r.adSetFBID == a) ≤ 1

/-- Idempotent resolution statement for `dim_Ads`. -/
@[reducible] def ResolveIdemAd : Prop :=
  ∀ (o o2 : Oracle) (db db1 db2st db2 : Db) (sid1 sid2 : Nat) (a : Int)
    (n1 n2 b1 b2 t1 t2 l1 l2 : Option String) (k1 k2 : Nat),
    db.ads.countP (fun r => r.adFBID == a) ≤ 1 →
    get_or_create_ad o db sid1 a n1 b1 t1 l1 = .ok (k1, db1) →
    db2st.ads = db1.ads →
    get_or_create_ad o2 db2st sid2 a n2 b2 t2 l2 = .ok (k2, db2) →
    k1 = k2 ∧ db2 = db2st ∧
    (db1.ads = db.ads ∨
      db1.ads = db.ads ++
        [{ adID := k1, adSetID := sid1, adFBID := a, adName := n1,
           adBody := b1, adThumbnailURL := t1, permanentLink := l1 }]) ∧
    db1.ads.countP (fun r => r.adFBID == a) ≤ 1

/-- Idempotent resolution statement for `dim_Date`. -/
@[reducible] def ResolveIdemDate : Prop :=
  ∀ (o o2 : Oracle) (db db1 db2st db2 : Db) (fd : Date) (k1 k2 : Nat),
    db.dates.countP (fun r => r.dateID == dateKey fd) ≤ 1 →
    get_or_create_date o db (some fd) = .ok (k1, db1) →
    db2st.dates = db1.dates →
    get_or_create_date o2 db2st (some fd) = .ok (k2, db2) →
    k1 = k2 ∧ k1 = dateKey fd ∧ db2 = db2st ∧
    (db1.dates = db.dates ∨
      db1.dates = db.dates ++
        [{ dateID := dateKey fd, fullDate := fd, year := fd.year,
           month := fd.month, day := fd.day,
           dayOfWeek := fd.weekday + 1 }]) ∧
    db1.dates.countP (fun r => r.dateID == dateKey fd) ≤ 1

/-- Idempotent resolution statement for `dim_Demographics`, on non-null
composite keys. -/
@[reducible] def ResolveIdemDemographic : Prop :=
  ∀ (o o2 : Oracle) (db db1 db2st db2 : Db) (a g : String) (k1 k2 : Nat),
    db.demographics.countP
      (fun r => sqlEqStr r.ageBracket (some a) && sqlEqStr r.gender (some g)) ≤ 1 →
    get_or_create_demographic o db (some a) (some g) = .ok (k1, db1) →
    db2st.demographics = db1.demographics →
    get_or_create_demographic o2 db2st (some a) (some g) = .ok (k2, db2) →
    k1 = k2 ∧ db2 = db2st ∧
    (db1.demographics = db.demographics ∨
      db1.demographics = db.demographics ++
        [{ demographicID := k1, ageBracket := some a, gender := some g }]) ∧
    db1.demographics.countP
      (fun r => sqlEqStr r.ageBracket (some a) && sqlEqStr r.gender (some g)) ≤ 1

/-- Idempotent resolution statement for `dim_Placements`, on non-null
composite keys. -/
@[reducible] def ResolveIdemPlacement : Prop :=
  ∀ (o o2 : Oracle) (db db1 db2st db2 : Db) (p dv ps : String) (k1 k2 : Nat),
    db.placements.countP
      (fun r => sqlEqStr r.platform (some p) && sqlEqStr r.device (some dv) &&
        sqlEqStr r.position (some ps)) ≤ 1 →
    get_or_create_placement o db (some p) (some dv) (some ps) = .ok (k1, db1) →
    db2st.placements = db1.placements →
    get_or_create_placement o2 db2st (some p) (some dv) (some ps) = .ok (k2, db2) →
    k1 = k2 ∧ db2 = db2st ∧
    (db1.placements = db.placements ∨
      db1.placements = db.placements ++
        [{ placementID := k1, platform := some p, device := some dv,
           position := some ps }]) ∧
    db1.placements.countP
      (fun r => sqlEqStr r.platform (some p) && sqlEqStr r.device (some dv) &&
        sqlEqStr r.position (some ps)) ≤ 1

/-- The warehouse after one client resolution of `AccountFBID = 5` on the
empty warehouse. -/
def dbCli1 : Db :=
  { db0 with
    clients := [{ clientID := 1, accountFBID := 5, clientName := none }],
    nextClientID := 2 }

/-- The warehouse after resolving 2024-03-07 on the empty warehouse. -/
def dbDate1 : Db :=
  { db0 with
    dates := [{ dateID := 20240307, fullDate := d1, year := 2024, month := 3,
                day := 7, dayOfWeek := 4 }] }

/-- Count of inline per-record error lines in a run's output. -/
def numErrorLines (log : List Msg) : Nat :=
  log.countP fun m =>
    match m with
    | Msg.errorEnFila _ _ => true
    | _ => false

/-- A warehouse holding one campaign row with FBID 10 under client 1. -/
def dbCamp1 : Db :=
  { db0 with
    campaigns := [{ campaignID := 1, clientID := 1, campaignFBID := 10,
                    campaignName := none, objective := none }],
    nextCampaignID := 2 }

/-- Appending to a list in which a lookup fails defers the lookup to the
appended part. -/
theorem find?_append_none {α : Type} {p : α → Bool} {l1 l2 : List α}
    (h : l1.find? p = none) : (l1 ++ l2).find? p = l2.find? p := by
  rw [List.find?_append, h]
  rfl

/-- A failed lookup means no element satisfies the filter, so the count of
matching rows is zero. -/
theorem countP_eq_zero_of_find?_none {α : Type} {p : α → Bool} {l : List α}
    (h : l.find? p = none) : l.countP p = 0 := by
  rw [List.find?_eq_none] at h
  exact List.countP_eq_zero.mpr fun a ha => by simpa using h a ha

/-- Rows surviving a delete-by-grain never match the grain filter. -/
theorem countP_filter_not {α : Type} (p : α → Bool) (l : List α) :
    (l.filter fun x => !(p x)).countP p = 0 := by
  refine List.countP_eq_zero.mpr fun a ha => ?_
  have := (List.mem_filter.mp ha).2
  simp only [Bool.not_eq_true'] at this
  simp [this]

/-- Full characterization of a successful `get_or_create_client` call. -/
theorem get_or_create_client_ok {o : Oracle} {db : Db} {a : Int}
    {n : Option String} {k : Nat} {db' : Db}
    (h : get_or_create_client o db a n = .ok (k, db')) :
    o (SqlOp.selectClient a) = none ∧
    ((∃ r, db.clients.find? (fun r => r.accountFBID == a) = some r ∧
        k = r.clientID ∧ db' = db) ∨
      (db.clients.find? (fun r => r.accountFBID == a) = none ∧
        o (SqlOp.insertClient a n) = none ∧ k = db.nextClientID ∧
        db' = { db with
          clients := db.clients ++
            [{ clientID := db.nextClientID, accountFBID := a, clientName := n }],
          nextClientID := db.nextClientID + 1 })) := by
  unfold get_or_create_client at h
  cases hsel : o (SqlOp.selectClient a) with
  | some e => rw [hsel] at h; cases h
  | none =>
    rw [hsel] at h
    cases hf : db.clients.find? (fun r => r.accountFBID == a) with
    | some r =>
      rw [hf] at h
      cases h
      exact ⟨rfl, Or.inl ⟨r, rfl, rfl, rfl⟩⟩
    | none =>
      rw [hf] at h
      cases hins : o (SqlOp.insertClient a n) with
      | some e => rw [hins] at h; cases h
      | none =>
        rw [hins] at h
        cases h
        exact ⟨rfl, Or.inr ⟨rfl, rfl, rfl, rfl⟩⟩

/-- A successful `get_or_create_client` call touches only `dim_Clients` and
its IDENTITY counter. -/
theorem get_or_create_client_frame {o : Oracle} {db : Db} {a : Int}
    {n : Option String} {k : Nat} {db' : Db}
    (h : get_or_create_client o db a n = .ok (k, db')) :
    db'.campaigns = db.campaigns ∧ db'.adSets = db.adSets ∧
    db'.ads = db.ads ∧ db'.dates = db.dates ∧
    db'.demographics = db.demographics ∧ db'.placements = db.placements ∧
    db'.facts = db.facts := by
  rcases get_or_create_client_ok h with ⟨-, ⟨r, -, -, rfl⟩ | ⟨-, -, -, rfl⟩⟩ <;>
    exact ⟨rfl, rfl, rfl, rfl, rfl, rfl, rfl⟩

/-- Full characterization of a successful `get_or_create_campaign` call. -/
theorem get_or_create_campaign_ok {o : Oracle} {db : Db} {cid : Nat} {a : Int}
    {n ob : Option String} {k : Nat} {db' : Db}
    (h : get_or_create_campaign o db cid a n ob = .ok (k, db')) :
    o (SqlOp.selectCampaign a) = none ∧
    ((∃ r, db.campaigns.find? (fun r => r.campaignFBID == a) = some r ∧
        k = r.campaignID ∧ db' = db) ∨
      (db.campaigns.find? (fun r => r.campaignFBID == a) = none ∧
        o (SqlOp.insertCampaign cid a n ob) = none ∧ k = db.nextCampaignID ∧
        db' = { db with
          campaigns := db.campaigns ++
            [{ campaignID := db.nextCampaignID, clientID := cid,
               campaignFBID := a, campaignName := n, objective := ob }],
          nextCampaignID := db.nextCampaignID + 1 })) := by
  unfold get_or_create_campaign at h
  cases hsel : o (SqlOp.selectCampaign a) with
  | some e => rw [hsel] at h; cases h
  | none =>
    rw [hsel] at h
    cases hf : db.campaigns.find? (fun r => r.campaignFBID == a) with
    | some r =>
      rw [hf] at h
      cases h
      exact ⟨rfl, Or.inl ⟨r, rfl, rfl, rfl⟩⟩
    | none =>
      rw [hf] at h
      cases hins : o (SqlOp.insertCampaign cid a n ob) with
      | some e => rw [hins] at h; cases h
      | none =>
        rw [hins] at h
        cases h
        exact ⟨rfl, Or.inr ⟨rfl, rfl, rfl, rfl⟩⟩

/-- A successful `get_or_create_campaign` call touches only `dim_Campaigns`
and its IDENTITY counter. -/
theorem get_or_create_campaign_frame {o : Oracle} {db : Db} {cid : Nat}
    {a : Int} {n ob : Option String} {k : Nat} {db' : Db}
    (h : get_or_create_campaign o db cid a n ob = .ok (k, db')) :
    db'.clients = db.clients ∧ db'.adSets = db.adSets ∧
    db'.ads = db.ads ∧ db'.dates = db.dates ∧
    db'.demographics = db.demographics ∧ db'.placements = db.placements ∧
    db'.facts = db.facts := by
  rcases get_or_create_campaign_ok h with ⟨-, ⟨r, -, -, rfl⟩ | ⟨-, -, -, rfl⟩⟩ <;>
    exact ⟨rfl, rfl, rfl, rfl, rfl, rfl, rfl⟩

/-- Full characterization of a successful `get_or_create_adset` call. -/
theorem get_or_create_adset_ok {o : Oracle} {db : Db} {cid : Nat} {a : Int}
    {n : Option String} {k : Nat} {db' : Db}
    (h : get_or_create_adset o db cid a n = .ok (k, db')) :
    o (SqlOp.selectAdSet a) = none ∧
    ((∃ r, db.adSets.find? (fun r => r.adSetFBID == a) = some r ∧
        k = r.adSetID ∧ db' = db) ∨
      (db.adSets.find? (fun r => r.adSetFBID == a) = none ∧
        o (SqlOp.insertAdSet cid a n) = none ∧ k = db.nextAdSetID ∧
        db' = { db with
          adSets := db.adSets ++
            [{ adSetID := db.nextAdSetID, campaignID := cid, adSetFBID := a,
               adSetName := n }],
          nextAdSetID := db.nextAdSetID + 1 })) := by
  unfold get_or_create_adset at h
  cases hsel : o (SqlOp.selectAdSet a) with
  | some e => rw [hsel] at h; cases h
  | none =>
    rw [hsel] at h
    cases hf : db.adSets.find? (fun r => r.adSetFBID == a) with
    | some r =>
      rw [hf] at h
      cases h
      exact ⟨rfl, Or.inl ⟨r, rfl, rfl, rfl⟩⟩
    | none =>
      rw [hf] at h
      cases hins : o (SqlOp.insertAdSet cid a n) with
      | some e => rw [hins] at h; cases h
      | none =>
        rw [hins] at h
        cases h
        exact ⟨rfl, Or.inr ⟨rfl, rfl, rfl, rfl⟩⟩

/-- A successful `get_or_create_adset` call touches only `dim_AdSets` and its
IDENTITY counter. -/
theorem get_or_create_adset_frame {o : Oracle} {db : Db} {cid : Nat}
    {a : Int} {n : Option String} {k : Nat} {db' : Db}
    (h : get_or_create_adset o db cid a n = .ok (k, db')) :
    db'.clients = db.clients ∧ db'.campaigns = db.campaigns ∧
    db'.ads = db.ads ∧ db'.dates = db.dates ∧
    db'.demographics = db.demographics ∧ db'.placements = db.placements ∧
    db'.facts = db.facts := by
  rcases get_or_create_adset_ok h with ⟨-, ⟨r, -, -, rfl⟩ | ⟨-, -, -, rfl⟩⟩ <;>
    exact ⟨rfl, rfl, rfl, rfl, rfl, rfl, rfl⟩

/-- Full characterization of a successful `get_or_create_ad` call. -/
theorem get_or_create_ad_ok {o : Oracle} {db : Db} {asid : Nat} {a : Int}
    {n b t l : Option String} {k : Nat} {db' : Db}
    (h : get_or_create_ad o db asid a n b t l = .ok (k, db')) :
    o (SqlOp.selectAd a) = none ∧
    ((∃ r, db.ads.find? (fun r => r.adFBID == a) = some r ∧
        k = r.adID ∧ db' = db) ∨
      (db.ads.find? (fun r => r.adFBID == a) = none ∧
        o (SqlOp.insertAd asid a n b t l) = none ∧ k = db.nextAdID ∧
        db' = { db with
          ads := db.ads ++
            [{ adID := db.nextAdID, adSetID := asid, adFBID := a,
               adName := n, adBody := b, adThumbnailURL := t,
               permanentLink := l }],
          nextAdID := db.nextAdID + 1 })) := by
  unfold get_or_create_ad at h
  cases hsel : o (SqlOp.selectAd a) with
  | some e => rw [hsel] at h; cases h
  | none =>
    rw [hsel] at h
    cases hf : db.ads.find? (fun r => r.adFBID == a) with
    | some r =>
      rw [hf] at h
      cases h
      exact ⟨rfl, Or.inl ⟨r, rfl, rfl, rfl⟩⟩
    | none =>
      rw [hf] at h
      cases hins : o (SqlOp.insertAd asid a n b t l) with
      | some e => rw [hins] at h; cases h
      | none =>
        rw [hins] at h
        cases h
        exact ⟨rfl, Or.inr ⟨rfl, rfl, rfl, rfl⟩⟩

/-- A successful `get_or_create_ad` call touches only `dim_Ads` and its
IDENTITY counter. -/
theorem get_or_create_ad_frame {o : Oracle} {db : Db} {asid : Nat} {a : Int}
    {n b t l : Option String} {k : Nat} {db' : Db}
    (h : get_or_create_ad o db asid a n b t l = .ok (k, db')) :
    db'.clients = db.clients ∧ db'.campaigns = db.campaigns ∧
    db'.adSets = db.adSets ∧ db'.dates = db.dates ∧
    db'.demographics = db.demographics ∧ db'.placements = db.placements ∧
    db'.facts = db.facts := by
  rcases get_or_create_ad_ok h with ⟨-, ⟨r, -, -, rfl⟩ | ⟨-, -, -, rfl⟩⟩ <;>
    exact ⟨rfl, rfl, rfl, rfl, rfl, rfl, rfl⟩

/-- Full characterization of a successful `get_or_create_date` call on a
present date. -/
theorem get_or_create_date_ok {o : Oracle} {db : Db} {fd : Date} {k : Nat}
    {db' : Db} (h : get_or_create_date o db (some fd) = .ok (k, db')) :
    k = dateKey fd ∧ o (SqlOp.selectDate (dateKey fd)) = none ∧
    ((∃ r, db.dates.find? (fun r => r.dateID == dateKey fd) = some r ∧
        db' = db) ∨
      (db.dates.find? (fun r => r.dateID == dateKey fd) = none ∧
        o (SqlOp.insertDate (dateKey fd) fd) = none ∧
        db' = { db with
          dates := db.dates ++
            [{ dateID := dateKey fd, fullDate := fd, year := fd.year,
               month := fd.month, day := fd.day,
               dayOfWeek := fd.weekday + 1 }] })) := by
  unfold get_or_create_date at h
  dsimp only at h
  cases hsel : o (SqlOp.selectDate (dateKey fd)) with
  | some e => rw [hsel] at h; cases h
  | none =>
    rw [hsel] at h
    cases hf : db.dates.find? (fun r => r.dateID == dateKey fd) with
    | some r =>
      rw [hf] at h
      cases h
      exact ⟨rfl, rfl, Or.inl ⟨r, rfl, rfl⟩⟩
    | none =>
      rw [hf] at h
      cases hins : o (SqlOp.insertDate (dateKey fd) fd) with
      | some e => rw [hins] at h; cases h
      | none =>
        rw [hins] at h
        cases h
        exact ⟨rfl, rfl, Or.inr ⟨rfl, rfl, rfl⟩⟩

/-- A successful `get_or_create_date` call touches only `dim_Date`. -/
theorem get_or_create_date_frame {o : Oracle} {db : Db} {fd : Option Date}
    {k : Nat} {db' : Db} (h : get_or_create_date o db fd = .ok (k, db')) :
    db'.clients = db.clients ∧ db'.campaigns = db.campaigns ∧
    db'.adSets = db.adSets ∧ db'.ads = db.ads ∧
    db'.demographics = db.demographics ∧ db'.placements = db.placements ∧
    db'.facts = db.facts ∧ db'.nextClientID = db.nextClientID ∧
    db'.nextCampaignID = db.nextCampaignID ∧
    db'.nextAdSetID = db.nextAdSetID ∧ db'.nextAdID = db.nextAdID ∧
    db'.nextDemographicID = db.nextDemographicID ∧
    db'.nextPlacementID = db.nextPlacementID := by
  cases fd with
  | none => cases h
  | some d =>
    rcases get_or_create_date_ok h with ⟨-, -, ⟨r, -, rfl⟩ | ⟨-, -, rfl⟩⟩ <;>
      exact ⟨rfl, rfl, rfl, rfl, rfl, rfl, rfl, rfl, rfl, rfl, rfl, rfl, rfl⟩

/-- Full characterization of a successful `get_or_create_demographic`
call. -/
theorem get_or_create_demographic_ok {o : Oracle} {db : Db}
    {a g : Option String} {k : Nat} {db' : Db}
    (h : get_or_create_demographic o db a g = .ok (k, db')) :
    o (SqlOp.selectDemographic a g) = none ∧
    ((∃ r, db.demographics.find?
          (fun r => sqlEqStr r.ageBracket a && sqlEqStr r.gender g) = some r ∧
        k = r.demographicID ∧ db' = db) ∨
      (db.demographics.find?
          (fun r => sqlEqStr r.ageBracket a && sqlEqStr r.gender g) = none ∧
        o (SqlOp.insertDemographic a g) = none ∧ k = db.nextDemographicID ∧
        db' = { db with
          demographics := db.demographics ++
            [{ demographicID := db.nextDemographicID, ageBracket := a,
               gender := g }],
          nextDemographicID := db.nextDemographicID + 1 })) := by
  unfold get_or_create_demographic at h
  cases hsel : o (SqlOp.selectDemographic a g) with
  | some e => rw [hsel] at h; cases h
  | none =>
    rw [hsel] at h
    cases hf : db.demographics.find?
        (fun r => sqlEqStr r.ageBracket a && sqlEqStr r.gender g) with
    | some r =>
      rw [hf] at h
      cases h
      exact ⟨rfl, Or.inl ⟨r, rfl, rfl, rfl⟩⟩
    | none =>
      rw [hf] at h
      cases hins : o (SqlOp.insertDemographic a g) with
      | some e => rw [hins] at h; cases h
      | none =>
        rw [hins] at h
        cases h
        exact ⟨rfl, Or.inr ⟨rfl, rfl, rfl, rfl⟩⟩

/-- A successful `get_or_create_demographic` call touches only
`dim_Demographics` and its IDENTITY counter. -/
theorem get_or_create_demographic_frame {o : Oracle} {db : Db}
    {a g : Option String} {k : Nat} {db' : Db}
    (h : get_or_create_demographic o db a g = .ok (k, db')) :
    db'.clients = db.clients ∧ db'.campaigns = db.campaigns ∧
    db'.adSets = db.adSets ∧ db'.ads = db.ads ∧ db'.dates = db.dates ∧
    db'.placements = db.placements ∧ db'.facts = db.facts := by
  rcases get_or_create_demographic_ok h with ⟨-, ⟨r, -, -, rfl⟩ | ⟨-, -, -, rfl⟩⟩ <;>
    exact ⟨rfl, rfl, rfl, rfl, rfl, rfl, rfl⟩

/-- Full characterization of a successful `get_or_create_placement` call. -/
theorem get_or_create_placement_ok {o : Oracle} {db : Db}
    {p dv ps : Option String} {k : Nat} {db' : Db}
    (h : get_or_create_placement o db p dv ps = .ok (k, db')) :
    o (SqlOp.selectPlacement p dv ps) = none ∧
    ((∃ r, db.placements.find?
          (fun r => sqlEqStr r.platform p && sqlEqStr r.device dv &&
            sqlEqStr r.position ps) = some r ∧
        k = r.placementID ∧ db' = db) ∨
      (db.placements.find?
          (fun r => sqlEqStr r.platform p && sqlEqStr r.device dv &&
            sqlEqStr r.position ps) = none ∧
        o (SqlOp.insertPlacement p dv ps) = none ∧ k = db.nextPlacementID ∧
        db' = { db with
          placements := db.placements ++
            [{ placementID := db.nextPlacementID, platform := p,
               device := dv, position := ps }],
          nextPlacementID := db.nextPlacementID + 1 })) := by
  unfold get_or_create_placement at h
  cases hsel : o (SqlOp.selectPlacement p dv ps) with
  | some e => rw [hsel] at h; cases h
  | none =>
    rw [hsel] at h
    cases hf : db.placements.find?
        (fun r => sqlEqStr r.platform p && sqlEqStr r.device dv &&
          sqlEqStr r.position ps) with
    | some r =>
      rw [hf] at h
      cases h
      exact ⟨rfl, Or.inl ⟨r, rfl, rfl, rfl⟩⟩
    | none =>
      rw [hf] at h
      cases hins : o (SqlOp.insertPlacement p dv ps) with
      | some e => rw [hins] at h; cases h
      | none =>
        rw [hins] at h
        cases h
        exact ⟨rfl, Or.inr ⟨rfl, rfl, rfl, rfl⟩⟩

/-- A successful `get_or_create_placement` call touches only `dim_Placements`
and its IDENTITY counter. -/
theorem get_or_create_placement_frame {o : Oracle} {db : Db}
    {p dv ps : Option String} {k : Nat} {db' : Db}
    (h : get_or_create_placement o db p dv ps = .ok (k, db')) :
    db'.clients = db.clients ∧ db'.campaigns = db.campaigns ∧
    db'.adSets = db.adSets ∧ db'.ads = db.ads ∧ db'.dates = db.dates ∧
    db'.demographics = db.demographics ∧ db'.facts = db.facts := by
  rcases get_or_create_placement_ok h with ⟨-, ⟨r, -, -, rfl⟩ | ⟨-, -, -, rfl⟩⟩ <;>
    exact ⟨rfl, rfl, rfl, rfl, rfl, rfl, rfl⟩

/-- Parsing distributes over digit-list concatenation. -/
theorem pyIntOfDigits_append (l1 l2 : List Nat) :
    pyIntOfDigits (l1 ++ l2) = l2.foldl (fun a d => a * 10 + d) (pyIntOfDigits l1) := by
  unfold pyIntOfDigits
  rw [List.foldl_append]

/-- Parsing the year's own digits gives the year back (for the year range of
`datetime`). -/
theorem pyIntOfDigits_yearDigits (y : Nat) (hy : y ≤ 9999) :
    pyIntOfDigits (yearDigits y) = y := by
  unfold pyIntOfDigits yearDigits
  split_ifs <;> simp [List.foldl] <;> omega

/-- Deleting all rows matching `p` and appending one matching row leaves
exactly one matching row. -/
theorem countP_replace {α : Type} (p : α → Bool) (l : List α) (f : α)
    (hf : p f = true) : ((l.filter fun x => !(p x)) ++ [f]).countP p = 1 := by
  rw [List.countP_append, countP_filter_not]
  simp [List.countP_cons, hf]

/-- Deleting all rows matching `p` and appending one matching row does not
change membership of any non-matching row. -/
theorem mem_replace {α : Type} {p : α → Bool} {l : List α} {f g : α}
    (hf : p f = true) (hg : p g = false) :
    (g ∈ (l.filter fun x => !(p x)) ++ [f]) ↔ g ∈ l := by
  constructor
  · intro hmem
    rcases List.mem_append.mp hmem with hm | hm
    · exact (List.mem_filter.mp hm).1
    · simp only [List.mem_singleton] at hm
      subst hm
      rw [hf] at hg
      cases hg
  · intro hmem
    exact List.mem_append.mpr (Or.inl (List.mem_filter.mpr ⟨hmem, by simp [hg]⟩))

/-- A successful `process_row` decomposes into the seven dimension
resolutions in source order, the successful grain delete, and the successful
fact insert; the final store is the last resolver's store with the grain's
fact rows removed and the fresh row appended. -/
theorem process_row_ok_chain {o : Oracle} {db : Db} {row : Record} {db' : Db}
    (h : process_row o db row = .ok db') :
    ∃ (date_id client_id campaign_id adset_id ad_id demographic_id
        placement_id : Nat) (dbA dbB dbC dbD dbE dbF dbG : Db),
      get_or_create_date o db row.FullDate = .ok (date_id, dbA) ∧
      get_or_create_client o dbA row.AccountFBID row.ClientName = .ok (client_id, dbB) ∧
      get_or_create_campaign o dbB client_id row.CampaignFBID row.CampaignName row.Objective = .ok (campaign_id, dbC) ∧
      get_or_create_adset o dbC campaign_id row.AdSetFBID row.AdSetName = .ok (adset_id, dbD) ∧
      get_or_create_ad o dbD adset_id row.AdFBID row.AdName row.AdBody row.AdThumbnailURL row.PermanentLink = .ok (ad_id, dbE) ∧
      get_or_create_demographic o dbE row.AgeBracket row.Gender = .ok (demographic_id, dbF) ∧
      get_or_create_placement o dbF row.Platform row.Device row.Position = .ok (placement_id, dbG) ∧
      o (SqlOp.deleteFacts date_id ad_id demographic_id placement_id) = none ∧
      o (SqlOp.insertFact
        { dateID := date_id, clientID := client_id, campaignID := campaign_id,
          adSetID := adset_id, adID := ad_id, demographicID := demographic_id,
          placementID := placement_id, measures := row.measures }) = none ∧
      db' = { dbG with
        facts := (dbG.facts.filter
            (fun f => !(grainEq f date_id ad_id demographic_id placement_id))) ++
          [{ dateID := date_id, clientID := client_id,
             campaignID := campaign_id, adSetID := adset_id, adID := ad_id,
             demographicID := demographic_id, placementID := placement_id,
             measures := row.measures }] } := by
  unfold process_row at h
  cases h1 : get_or_create_date o db row.FullDate with
  | error e => rw [h1] at h; cases h
  | ok p1 =>
    obtain ⟨date_id, dbA⟩ := p1
    rw [h1] at h
    dsimp only at h
    cases h2 : get_or_create_client o dbA row.AccountFBID row.ClientName with
    | error e => rw [h2] at h; cases h
    | ok p2 =>
      obtain ⟨client_id, dbB⟩ := p2
      rw [h2] at h
      dsimp only at h
      cases h3 : get_or_create_campaign o dbB client_id row.CampaignFBID row.CampaignName row.Objective with
      | error e => rw [h3] at h; cases h
      | ok p3 =>
        obtain ⟨campaign_id, dbC⟩ := p3
        rw [h3] at h
        dsimp only at h
        cases h4 : get_or_create_adset o dbC campaign_id row.AdSetFBID row.AdSetName with
        | error e => rw [h4] at h; cases h
        | ok p4 =>
          obtain ⟨adset_id, dbD⟩ := p4
          rw [h4] at h
          dsimp only at h
          cases h5 : get_or_create_ad o dbD adset_id row.AdFBID row.AdName row.AdBody row.AdThumbnailURL row.PermanentLink with
          | error e => rw [h5] at h; cases h
          | ok p5 =>
            obtain ⟨ad_id, dbE⟩ := p5
            rw [h5] at h
            dsimp only at h
            cases h6 : get_or_create_demographic o dbE row.AgeBracket row.Gender with
            | error e => rw [h6] at h; cases h
            | ok p6 =>
              obtain ⟨demographic_id, dbF⟩ := p6
              rw [h6] at h
              dsimp only at h
              cases h7 : get_or_create_placement o dbF row.Platform row.Device row.Position with
              | error e => rw [h7] at h; cases h
              | ok p7 =>
                obtain ⟨placement_id, dbG⟩ := p7
                rw [h7] at h
                dsimp only at h
                cases hdel : o (SqlOp.deleteFacts date_id ad_id demographic_id placement_id) with
                | some e => rw [hdel] at h; cases h
                | none =>
                  rw [hdel] at h
                  dsimp only at h
                  cases hins : o (SqlOp.insertFact
                      { dateID := date_id, clientID := client_id,
                        campaignID := campaign_id, adSetID := adset_id,
                        adID := ad_id, demographicID := demographic_id,
                        placementID := placement_id, measures := row.measures }) with
                  | some e => rw [hins] at h; cases h
                  | none =>
                    rw [hins] at h
                    dsimp only at h
                    cases h
                    exact ⟨date_id, client_id, campaign_id, adset_id, ad_id,
                      demographic_id, placement_id, dbA, dbB, dbC, dbD, dbE,
                      dbF, dbG, rfl, h2, h3, h4, h5, h6, h7, hdel, hins, rfl⟩

/-- C1: after successfully processing a record, the fact table holds exactly
one row for the record's resolved grain key, carrying the record's measures
verbatim (so a re-import of the same grain fully replaces the prior measures,
with no merging), and the fact rows of every other grain are unaffected. -/
theorem fact_replacement_last_write_wins (o : Oracle) (db : Db) (row : Record)
    (db' : Db) (h : process_row o db row = .ok db') :
    FactReplaceSpec db row db' := by
  obtain ⟨dId, cId, cpId, asId, aId, dmId, pId, dbA, dbB, dbC, dbD, dbE, dbF,
    dbG, h1, h2, h3, h4, h5, h6, h7, hdel, hins, rfl⟩ := process_row_ok_chain h
  have hfacts : dbG.facts = db.facts := by
    rw [(get_or_create_placement_frame h7).2.2.2.2.2.2,
      (get_or_create_demographic_frame h6).2.2.2.2.2.2,
      (get_or_create_ad_frame h5).2.2.2.2.2.2,
      (get_or_create_adset_frame h4).2.2.2.2.2.2,
      (get_or_create_campaign_frame h3).2.2.2.2.2.2,
      (get_or_create_client_frame h2).2.2.2.2.2.2,
      (get_or_create_date_frame h1).2.2.2.2.2.2.1]
  refine ⟨dId, cId, cpId, asId, aId, dmId, pId, ?_, ?_, ?_⟩
  · dsimp only
    rw [hfacts]
  · exact countP_replace _ _ _ (by simp [grainEq])
  · intro f hf
    have hmr := @mem_replace FactRow (fun g => grainEq g dId aId dmId pId)
      dbG.facts
      { dateID := dId, clientID := cId, campaignID := cpId, adSetID := asId,
        adID := aId, demographicID := dmId, placementID := pId,
        measures := row.measures } f (by simp [grainEq]) hf
    rw [hfacts] at hmr
    dsimp only
    rw [hfacts]
    exact hmr

/-- Witness for C1: re-importing `r1`'s grain with spend 150 over the
warehouse already holding spend 100 leaves exactly the one fresh fact row. -/
theorem fact_replacement_last_write_wins_witness :
    process_row okOracle db1ex r1b = .ok db2ex ∧
      FactReplaceSpec db1ex r1b db2ex :=
  ⟨by decide, fact_replacement_last_write_wins okOracle db1ex r1b db2ex (by decide)⟩

/-- C2: when processing a record fails at any point (a storage failure on any
statement, including between the grain delete and the fact insert, or the
Python error on a missing date), the committed store after the record is
exactly the store before it: the rollback keeps the prior fact row and drops
every dimension row the failed record had created. -/
theorem record_processing_atomic (o : Oracle) (db : Db) (row : Record)
    (err : Err) (h : process_row o db row = .error err) :
    (mainImport o db [row]).1 = db := by
  cases err with
  | dbErr e => simp [mainImport, runLoop, h]
  | valueErr => simp [mainImport, runLoop, h]

/-- Witness for C2: the store fails the fact insert (after the grain delete)
while re-importing `r1`; the committed warehouse, including the prior fact
row and the dimension tables, is unchanged. -/
theorem record_processing_atomic_witness :
    process_row failFactInsert db1ex r1 = .error (Err.dbErr 3) ∧
      (mainImport failFactInsert db1ex [r1]).1 = db1ex :=
  ⟨by decide,
    record_processing_atomic failFactInsert db1ex r1 (Err.dbErr 3) (by decide)⟩

/-- C3 counterexample: in a two-record batch whose first record has a
missing/unparseable date, the `ValueError` escapes the `except pyodbc.Error`
handler, so the run aborts: the second (well-formed) record is never
attempted and no completion line is printed. -/
theorem malformed_date_aborts_run :
    mainImport okOracle db0 [rBad, r1] =
      (db0, [Msg.procesando 1 2], some Err.valueErr) := by decide

/-- C3 amended: a record failure surfacing as a `pyodbc.Error` rolls back
that record's transaction and processing continues with the next record,
with the committed store (hence all previously committed records) untouched;
but a record whose date field is missing raises a `ValueError` that is not
caught, so the run aborts at that record (its uncommitted work is discarded
and later records are not attempted). -/
theorem per_record_failure_policy (o : Oracle) (total idx : Nat) (db : Db)
    (row : Record) (rest : List Record) :
    (∀ e, process_row o db row = .error (.dbErr e) →
      runLoop o total idx db (row :: rest) =
        ((runLoop o total (idx + 1) db rest).1,
          Msg.procesando idx total :: Msg.errorEnFila idx e ::
            (runLoop o total (idx + 1) db rest).2.1,
          (runLoop o total (idx + 1) db rest).2.2)) ∧
    (process_row o db row = .error .valueErr →
      runLoop o total idx db (row :: rest) =
        (db, [Msg.procesando idx total], some Err.valueErr)) := by
  constructor
  · intro e h
    simp [runLoop, h]
  · intro h
    simp [runLoop, h]

/-- Witness for C3: the missing-date record aborts a two-record run, and a
database error on the fact insert is handled per-record. -/
theorem per_record_failure_policy_witness :
    runLoop okOracle 2 1 db0 [rBad, r1] =
      (db0, [Msg.procesando 1 2], some Err.valueErr) ∧
    runLoop failFactInsert 1 1 db1ex [r1] =
      ((runLoop failFactInsert 1 2 db1ex []).1,
        Msg.procesando 1 1 :: Msg.errorEnFila 1 3 ::
          (runLoop failFactInsert 1 2 db1ex []).2.1,
        (runLoop failFactInsert 1 2 db1ex []).2.2) :=
  ⟨(per_record_failure_policy okOracle 2 1 db0 rBad [r1]).2 (by decide),
    (per_record_failure_policy failFactInsert 1 1 db1ex r1 []).1 3 (by decide)⟩

/-- Idempotence of client resolution on a (non-null) `AccountFBID`: under the
natural-key uniqueness invariant, a second call on a store whose
`dim_Clients` content is that left by the first call returns the same
surrogate key and inserts nothing, the first call inserted at most one row,
and at most one row with that natural key exists. -/
theorem resolveIdem_client (o o2 : Oracle) (db db1 db2st db2 : Db) (a : Int)
    (n1 n2 : Option String) (k1 k2 : Nat)
    (hInv : db.clients.countP (fun r => r.accountFBID == a) ≤ 1)
    (h1 : get_or_create_client o db a n1 = .ok (k1, db1))
    (hmid : db2st.clients = db1.clients)
    (h2 : get_or_create_client o2 db2st a n2 = .ok (k2, db2)) :
    k1 = k2 ∧ db2 = db2st ∧
    (db1.clients = db.clients ∨
      db1.clients = db.clients ++
        [{ clientID := k1, accountFBID := a, clientName := n1 }]) ∧
    db1.clients.countP (fun r => r.accountFBID == a) ≤ 1 := by
  rcases get_or_create_client_ok h1 with ⟨-, ⟨r, hf, hk, rfl⟩ | ⟨hf, -, hk, rfl⟩⟩
  · rcases get_or_create_client_ok h2 with ⟨-, ⟨r2, hf2, hk2, rfl⟩ | ⟨hf2, -, -, -⟩⟩
    · rw [hmid, hf] at hf2
      cases hf2
      exact ⟨hk.trans hk2.symm, rfl, Or.inl rfl, hInv⟩
    · rw [hmid, hf] at hf2
      cases hf2
  · subst hk
    have hcount0 : db.clients.countP (fun r => r.accountFBID == a) = 0 :=
      countP_eq_zero_of_find?_none hf
    have hfind2 : db2st.clients.find? (fun r => r.accountFBID == a) =
        some { clientID := db.nextClientID, accountFBID := a, clientName := n1 } := by
      rw [hmid]
      dsimp only
      rw [find?_append_none hf]
      exact List.find?_cons_of_pos _ (by simp)
    rcases get_or_create_client_ok h2 with ⟨-, ⟨r2, hf2, hk2, rfl⟩ | ⟨hf2, -, -, -⟩⟩
    · rw [hfind2] at hf2
      cases hf2
      refine ⟨hk2.symm, rfl, Or.inr rfl, ?_⟩
      dsimp only
      rw [List.countP_append, hcount0]
      simp [List.countP_cons]
    · rw [hfind2] at hf2
      cases hf2

/-- Idempotence of campaign resolution on a (non-null) `CampaignFBID`, for
any parent-key and attribute arguments in either call. -/
theorem resolveIdem_campaign (o o2 : Oracle) (db db1 db2st db2 : Db)
    (cid1 cid2 : Nat) (a : Int) (n1 n2 ob1 ob2 : Option String) (k1 k2 : Nat)
    (hInv : db.campaigns.countP (fun r => r.campaignFBID == a) ≤ 1)
    (h1 : get_or_create_campaign o db cid1 a n1 ob1 = .ok (k1, db1))
    (hmid : db2st.campaigns = db1.campaigns)
    (h2 : get_or_create_campaign o2 db2st cid2 a n2 ob2 = .ok (k2, db2)) :
    k1 = k2 ∧ db2 = db2st ∧
    (db1.campaigns = db.campaigns ∨
      db1.campaigns = db.campaigns ++
        [{ campaignID := k1, clientID := cid1, campaignFBID := a,
           campaignName := n1, objective := ob1 }]) ∧
    db1.campaigns.countP (fun r => r.campaignFBID == a) ≤ 1 := by
  rcases get_or_create_campaign_ok h1 with ⟨-, ⟨r, hf, hk, rfl⟩ | ⟨hf, -, hk, rfl⟩⟩
  · rcases get_or_create_campaign_ok h2 with ⟨-, ⟨r2, hf2, hk2, rfl⟩ | ⟨hf2, -, -, -⟩⟩
    · rw [hmid, hf] at hf2
      cases hf2
      exact ⟨hk.trans hk2.symm, rfl, Or.inl rfl, hInv⟩
    · rw [hmid, hf] at hf2
      cases hf2
  · subst hk
    have hcount0 : db.campaigns.countP (fun r => r.campaignFBID == a) = 0 :=
      countP_eq_zero_of_find?_none hf
    have hfind2 : db2st.campaigns.find? (fun r => r.campaignFBID == a) =
        some { campaignID := db.nextCampaignID, clientID := cid1,
               campaignFBID := a, campaignName := n1, objective := ob1 } := by
      rw [hmid]
      dsimp only
      rw [find?_append_none hf]
      exact List.find?_cons_of_pos _ (by simp)
    rcases get_or_create_campaign_ok h2 with ⟨-, ⟨r2, hf2, hk2, rfl⟩ | ⟨hf2, -, -, -⟩⟩
    · rw [hfind2] at hf2
      cases hf2
      refine ⟨hk2.symm, rfl, Or.inr rfl, ?_⟩
      dsimp only
      rw [List.countP_append, hcount0]
      simp [List.countP_cons]
    · rw [hfind2] at hf2
      cases hf2

/-- Idempotence of ad-set resolution on a (non-null) `AdSetFBID`, for any
parent-key and attribute arguments in either call. -/
theorem resolveIdem_adset (o o2 : Oracle) (db db1 db2st db2 : Db)
    (cid1 cid2 : Nat) (a : Int) (n1 n2 : Option String) (k1 k2 : Nat)
    (hInv : db.adSets.countP (fun r => r.adSetFBID == a) ≤ 1)
    (h1 : get_or_create_adset o db cid1 a n1 = .ok (k1, db1))
    (hmid : db2st.adSets = db1.adSets)
    (h2 : get_or_create_adset o2 db2st cid2 a n2 = .ok (k2, db2)) :
    k1 = k2 ∧ db2 = db2st ∧
    (db1.adSets = db.adSets ∨
      db1.adSets = db.adSets ++
        [{ adSetID := k1, campaignID := cid1, adSetFBID := a,
           adSetName := n1 }]) ∧
    db1.adSets.countP (fun r => r.adSetFBID == a) ≤ 1 := by
  rcases get_or_create_adset_ok h1 with ⟨-, ⟨r, hf, hk, rfl⟩ | ⟨hf, -, hk, rfl⟩⟩
  · rcases get_or_create_adset_ok h2 with ⟨-, ⟨r2, hf2, hk2, rfl⟩ | ⟨hf2, -, -, -⟩⟩
    · rw [hmid, hf] at hf2
      cases hf2
      exact ⟨hk.trans hk2.symm, rfl, Or.inl rfl, hInv⟩
    · rw [hmid, hf] at hf2
      cases hf2
  · subst hk
    have hcount0 : db.adSets.countP (fun r => r.adSetFBID == a) = 0 :=
      countP_eq_zero_of_find?_none hf
    have hfind2 : db2st.adSets.find? (fun r => r.adSetFBID == a) =
        some { adSetID := db.nextAdSetID, campaignID := cid1, adSetFBID := a,
               adSetName := n1 } := by
      rw [hmid]
      dsimp only
      rw [find?_append_none hf]
      exact List.find?_cons_of_pos _ (by simp)
    rcases get_or_create_adset_ok h2 with ⟨-, ⟨r2, hf2, hk2, rfl⟩ | ⟨hf2, -, -, -⟩⟩
    · rw [hfind2] at hf2
      cases hf2
      refine ⟨hk2.symm, rfl, Or.inr rfl, ?_⟩
      dsimp only
      rw [List.countP_append, hcount0]
      simp [List.countP_cons]
    · rw [hfind2] at hf2
      cases hf2

/-- Idempotence of ad resolution on a (non-null) `AdFBID`, for any parent-key
and attribute arguments in either call. -/
theorem resolveIdem_ad (o o2 : Oracle) (db db1 db2st db2 : Db)
    (sid1 sid2 : Nat) (a : Int) (n1 n2 b1 b2 t1 t2 l1 l2 : Option String)
    (k1 k2 : Nat)
    (hInv : db.ads.countP (fun r => r.adFBID == a) ≤ 1)
    (h1 : get_or_create_ad o db sid1 a n1 b1 t1 l1 = .ok (k1, db1))
    (hmid : db2st.ads = db1.ads)
    (h2 : get_or_create_ad o2 db2st sid2 a n2 b2 t2 l2 = .ok (k2, db2)) :
    k1 = k2 ∧ db2 = db2st ∧
    (db1.ads = db.ads ∨
      db1.ads = db.ads ++
        [{ adID := k1, adSetID := sid1, adFBID := a, adName := n1,
           adBody := b1, adThumbnailURL := t1, permanentLink := l1 }]) ∧
    db1.ads.countP (fun r => r.adFBID == a) ≤ 1 := by
  rcases get_or_create_ad_ok h1 with ⟨-, ⟨r, hf, hk, rfl⟩ | ⟨hf, -, hk, rfl⟩⟩
  · rcases get_or_create_ad_ok h2 with ⟨-, ⟨r2, hf2, hk2, rfl⟩ | ⟨hf2, -, -, -⟩⟩
    · rw [hmid, hf] at hf2
      cases hf2
      exact ⟨hk.trans hk2.symm, rfl, Or.inl rfl, hInv⟩
    · rw [hmid, hf] at hf2
      cases hf2
  · subst hk
    have hcount0 : db.ads.countP (fun r => r.adFBID == a) = 0 :=
      countP_eq_zero_of_find?_none hf
    have hfind2 : db2st.ads.find? (fun r => r.adFBID == a) =
        some { adID := db.nextAdID, adSetID := sid1, adFBID := a,
               adName := n1, adBody := b1, adThumbnailURL := t1,
               permanentLink := l1 } := by
      rw [hmid]
      dsimp only
      rw [find?_append_none hf]
      exact List.find?_cons_of_pos _ (by simp)
    rcases get_or_create_ad_ok h2 with ⟨-, ⟨r2, hf2, hk2, rfl⟩ | ⟨hf2, -, -, -⟩⟩
    · rw [hfind2] at hf2
      cases hf2
      refine ⟨hk2.symm, rfl, Or.inr rfl, ?_⟩
      dsimp only
      rw [List.countP_append, hcount0]
      simp [List.countP_cons]
    · rw [hfind2] at hf2
      cases hf2

/-- Idempotence of date resolution: both calls return the derived key, and at
most one `dim_Date` row with that key is ever inserted. -/
theorem resolveIdem_date (o o2 : Oracle) (db db1 db2st db2 : Db) (fd : Date)
    (k1 k2 : Nat)
    (hInv : db.dates.countP (fun r => r.dateID == dateKey fd) ≤ 1)
    (h1 : get_or_create_date o db (some fd) = .ok (k1, db1))
    (hmid : db2st.dates = db1.dates)
    (h2 : get_or_create_date o2 db2st (some fd) = .ok (k2, db2)) :
    k1 = k2 ∧ k1 = dateKey fd ∧ db2 = db2st ∧
    (db1.dates = db.dates ∨
      db1.dates = db.dates ++
        [{ dateID := dateKey fd, fullDate := fd, year := fd.year,
           month := fd.month, day := fd.day,
           dayOfWeek := fd.weekday + 1 }]) ∧
    db1.dates.countP (fun r => r.dateID == dateKey fd) ≤ 1 := by
  rcases get_or_create_date_ok h1 with ⟨hk1, -, ⟨r, hf, rfl⟩ | ⟨hf, -, rfl⟩⟩
  · rcases get_or_create_date_ok h2 with ⟨hk2, -, ⟨r2, hf2, rfl⟩ | ⟨hf2, -, -⟩⟩
    · exact ⟨hk1.trans hk2.symm, hk1, rfl, Or.inl rfl, hInv⟩
    · rw [hmid, hf] at hf2
      cases hf2
  · have hcount0 : db.dates.countP (fun r => r.dateID == dateKey fd) = 0 :=
      countP_eq_zero_of_find?_none hf
    have hfind2 : db2st.dates.find? (fun r => r.dateID == dateKey fd) =
        some { dateID := dateKey fd, fullDate := fd, year := fd.year,
               month := fd.month, day := fd.day,
               dayOfWeek := fd.weekday + 1 } := by
      rw [hmid]
      dsimp only
      rw [find?_append_none hf]
      exact List.find?_cons_of_pos _ (by simp)
    rcases get_or_create_date_ok h2 with ⟨hk2, -, ⟨r2, hf2, rfl⟩ | ⟨hf2, -, -⟩⟩
    · refine ⟨hk1.trans hk2.symm, hk1, rfl, Or.inr rfl, ?_⟩
      dsimp only
      rw [List.countP_append, hcount0]
      simp [List.countP_cons]
    · rw [hfind2] at hf2
      cases hf2

/-- Idempotence of demographic resolution when both composite natural-key
fields are non-null. -/
theorem resolveIdem_demographic (o o2 : Oracle) (db db1 db2st db2 : Db)
    (a g : String) (k1 k2 : Nat)
    (hInv : db.demographics.countP
      (fun r => sqlEqStr r.ageBracket (some a) && sqlEqStr r.gender (some g)) ≤ 1)
    (h1 : get_or_create_demographic o db (some a) (some g) = .ok (k1, db1))
    (hmid : db2st.demographics = db1.demographics)
    (h2 : get_or_create_demographic o2 db2st (some a) (some g) = .ok (k2, db2)) :
    k1 = k2 ∧ db2 = db2st ∧
    (db1.demographics = db.demographics ∨
      db1.demographics = db.demographics ++
        [{ demographicID := k1, ageBracket := some a, gender := some g }]) ∧
    db1.demographics.countP
      (fun r => sqlEqStr r.ageBracket (some a) && sqlEqStr r.gender (some g)) ≤ 1 := by
  rcases get_or_create_demographic_ok h1 with ⟨-, ⟨r, hf, hk, rfl⟩ | ⟨hf, -, hk, rfl⟩⟩
  · rcases get_or_create_demographic_ok h2 with ⟨-, ⟨r2, hf2, hk2, rfl⟩ | ⟨hf2, -, -, -⟩⟩
    · rw [hmid, hf] at hf2
      cases hf2
      exact ⟨hk.trans hk2.symm, rfl, Or.inl rfl, hInv⟩
    · rw [hmid, hf] at hf2
      cases hf2
  · subst hk
    have hcount0 : db.demographics.countP
        (fun r => sqlEqStr r.ageBracket (some a) && sqlEqStr r.gender (some g)) = 0 :=
      countP_eq_zero_of_find?_none hf
    have hfind2 : db2st.demographics.find?
        (fun r => sqlEqStr r.ageBracket (some a) && sqlEqStr r.gender (some g)) =
        some { demographicID := db.nextDemographicID, ageBracket := some a,
               gender := some g } := by
      rw [hmid]
      dsimp only
      rw [find?_append_none hf]
      exact List.find?_cons_of_pos _ (by simp [sqlEqStr])
    rcases get_or_create_demographic_ok h2 with ⟨-, ⟨r2, hf2, hk2, rfl⟩ | ⟨hf2, -, -, -⟩⟩
    · rw [hfind2] at hf2
      cases hf2
      refine ⟨hk2.symm, rfl, Or.inr rfl, ?_⟩
      dsimp only
      rw [List.countP_append, hcount0]
      simp [List.countP_cons, sqlEqStr]
    · rw [hfind2] at hf2
      cases hf2

/-- Idempotence of placement resolution when all three composite natural-key
fields are non-null. -/
theorem resolveIdem_placement (o o2 : Oracle) (db db1 db2st db2 : Db)
    (p dv ps : String) (k1 k2 : Nat)
    (hInv : db.placements.countP
      (fun r => sqlEqStr r.platform (some p) && sqlEqStr r.device (some dv) &&
        sqlEqStr r.position (some ps)) ≤ 1)
    (h1 : get_or_create_placement o db (some p) (some dv) (some ps) = .ok (k1, db1))
    (hmid : db2st.placements = db1.placements)
    (h2 : get_or_create_placement o2 db2st (some p) (some dv) (some ps) = .ok (k2, db2)) :
    k1 = k2 ∧ db2 = db2st ∧
    (db1.placements = db.placements ∨
      db1.placements = db.placements ++
        [{ placementID := k1, platform := some p, device := some dv,
           position := some ps }]) ∧
    db1.placements.countP
      (fun r => sqlEqStr r.platform (some p) && sqlEqStr r.device (some dv) &&
        sqlEqStr r.position (some ps)) ≤ 1 := by
  rcases get_or_create_placement_ok h1 with ⟨-, ⟨r, hf, hk, rfl⟩ | ⟨hf, -, hk, rfl⟩⟩
  · rcases get_or_create_placement_ok h2 with ⟨-, ⟨r2, hf2, hk2, rfl⟩ | ⟨hf2, -, -, -⟩⟩
    · rw [hmid, hf] at hf2
      cases hf2
      exact ⟨hk.trans hk2.symm, rfl, Or.inl rfl, hInv⟩
    · rw [hmid, hf] at hf2
      cases hf2
  · subst hk
    have hcount0 : db.placements.countP
        (fun r => sqlEqStr r.platform (some p) && sqlEqStr r.device (some dv) &&
          sqlEqStr r.position (some ps)) = 0 :=
      countP_eq_zero_of_find?_none hf
    have hfind2 : db2st.placements.find?
        (fun r => sqlEqStr r.platform (some p) && sqlEqStr r.device (some dv) &&
          sqlEqStr r.position (some ps)) =
        some { placementID := db.nextPlacementID, platform := some p,
               device := some dv, position := some ps } := by
      rw [hmid]
      dsimp only
      rw [find?_append_none hf]
      exact List.find?_cons_of_pos _ (by simp [sqlEqStr])
    rcases get_or_create_placement_ok h2 with ⟨-, ⟨r2, hf2, hk2, rfl⟩ | ⟨hf2, -, -, -⟩⟩
    · rw [hfind2] at hf2
      cases hf2
      refine ⟨hk2.symm, rfl, Or.inr rfl, ?_⟩
      dsimp only
      rw [List.countP_append, hcount0]
      simp [List.countP_cons, sqlEqStr]
    · rw [hfind2] at hf2
      cases hf2

/-- C4 counterexample: resolving the all-NULL demographic natural key twice
returns two different surrogate keys and leaves two rows with the identical
natural key, because the SQL lookup `AgeBracket = NULL AND Gender = NULL`
matches nothing. -/
theorem null_demographic_resolution_not_idempotent :
    get_or_create_demographic okOracle db0 none none = .ok (1, dbDemo1) ∧
    get_or_create_demographic okOracle dbDemo1 none none = .ok (2, dbDemo2) ∧
    dbDemo2.demographics =
      [{ demographicID := 1, ageBracket := none, gender := none },
        { demographicID := 2, ageBracket := none, gender := none }] ∧
    (1 : Nat) ≠ 2 := by decide

/-- C4 amended: for every dimension, resolving a natural key whose components
are all non-null twice (the second call seeing the table state the first call
left) returns the same surrogate key both times, inserts zero or one row on
the first call and none on the second, and leaves at most one row with that
natural key; for the demographic and placement composite keys this requires
the non-null restriction, since a null component defeats the SQL equality
lookup (see the counterexample). -/
theorem dimension_resolution_idempotent :
    ResolveIdemClient ∧ ResolveIdemCampaign ∧ ResolveIdemAdSet ∧
    ResolveIdemAd ∧ ResolveIdemDate ∧ ResolveIdemDemographic ∧
    ResolveIdemPlacement :=
  ⟨resolveIdem_client, resolveIdem_campaign, resolveIdem_adset, resolveIdem_ad,
    resolveIdem_date, resolveIdem_demographic, resolveIdem_placement⟩

/-- Witness for C4: two concrete client resolutions of `AccountFBID = 5`
(with different attribute arguments) both return key 1 and leave one row. -/
theorem dimension_resolution_idempotent_witness :
    (db0.clients.countP (fun r => r.accountFBID == (5 : Int)) ≤ 1 ∧
      get_or_create_client okOracle db0 5 none = .ok (1, dbCli1) ∧
      get_or_create_client okOracle dbCli1 5 (some "renamed") = .ok (1, dbCli1)) ∧
    ((1 : Nat) = 1 ∧ dbCli1 = dbCli1 ∧
      (dbCli1.clients = db0.clients ∨
        dbCli1.clients = db0.clients ++
          [{ clientID := 1, accountFBID := 5, clientName := none }]) ∧
      dbCli1.clients.countP (fun r => r.accountFBID == (5 : Int)) ≤ 1) :=
  ⟨⟨by decide, by decide, by decide⟩,
    dimension_resolution_idempotent.1 okOracle okOracle db0 dbCli1 dbCli1
      dbCli1 5 none (some "renamed") 1 1 (by decide) (by decide) rfl (by decide)⟩

/-- C5 counterexample: import `r1` (client 1, campaign FBID 10) and then `r2`
(client 2, the same campaign FBID 10).  The second fact row carries client
key 2 (the producing record's client), but its campaign row still references
client 1, whose `AccountFBID` differs from `r2.AccountFBID`: the campaign's
client key does not match the record's client natural key. -/
theorem hierarchy_broken_on_reparented_campaign :
    ∃ f, f ∈ (mainImport okOracle db0 [r1, r2]).1.facts ∧
    ∃ cp, cp ∈ (mainImport okOracle db0 [r1, r2]).1.campaigns ∧
      cp.campaignID = f.campaignID ∧
    ∃ cl, cl ∈ (mainImport okOracle db0 [r1, r2]).1.clients ∧
      cl.clientID = cp.clientID ∧
    ∃ cl2, cl2 ∈ (mainImport okOracle db0 [r1, r2]).1.clients ∧
      cl2.clientID = f.clientID ∧ cl2.accountFBID = r2.AccountFBID ∧
      cl.accountFBID ≠ r2.AccountFBID := by
  refine ⟨{ dateID := 20240307, clientID := 2, campaignID := 1, adSetID := 2,
            adID := 2, demographicID := 1, placementID := 1, measures := mA },
    by decide,
    { campaignID := 1, clientID := 1, campaignFBID := 10,
      campaignName := none, objective := none },
    by decide, rfl,
    { clientID := 1, accountFBID := 1, clientName := none },
    by decide, rfl,
    { clientID := 2, accountFBID := 2, clientName := none },
    by decide, rfl, by decide, by decide⟩

/-- C5 amended: hierarchy integrity holds for a fact row whose campaign,
ad-set and ad rows are created by the very record that produces it (so in
particular on the first sighting of each FBID): the ad row references the
fact row's ad-set key, the ad-set row references the fact row's campaign key,
the campaign row references the fact row's client key, and that client row's
`AccountFBID` is the record's client natural key.  When an FBID is re-seen
under a different parent, the stored row keeps its original parent key, which
the counterexample shows can contradict the producing record. -/
theorem hierarchy_integrity_for_fresh_dimensions (o : Oracle) (db : Db)
    (row : Record) (db' : Db)
    (h : process_row o db row = .ok db')
    (hcp : db.campaigns.find? (fun r => r.campaignFBID == row.CampaignFBID) = none)
    (has : db.adSets.find? (fun r => r.adSetFBID == row.AdSetFBID) = none)
    (had : db.ads.find? (fun r => r.adFBID == row.AdFBID) = none) :
    ∃ f, db'.facts.getLast? = some f ∧
      (∃ ad, ad ∈ db'.ads ∧ ad.adID = f.adID ∧ ad.adSetID = f.adSetID) ∧
      (∃ s, s ∈ db'.adSets ∧ s.adSetID = f.adSetID ∧
        s.campaignID = f.campaignID) ∧
      (∃ cp, cp ∈ db'.campaigns ∧ cp.campaignID = f.campaignID ∧
        cp.clientID = f.clientID) ∧
      (∃ cl, cl ∈ db'.clients ∧ cl.clientID = f.clientID ∧
        cl.accountFBID = row.AccountFBID) := by
  obtain ⟨dId, cId, cpId, asId, aId, dmId, pId, dbA, dbB, dbC, dbD, dbE, dbF,
    dbG, h1, h2, h3, h4, h5, h6, h7, hdel, hins, rfl⟩ := process_row_ok_chain h
  obtain ⟨eA1, eA2, eA3, eA4, eA5, eA6, eA7, -, -, -, -, -, -⟩ :=
    get_or_create_date_frame h1
  obtain ⟨eB1, eB2, eB3, eB4, eB5, eB6, eB7⟩ := get_or_create_client_frame h2
  obtain ⟨hclient⟩ : ∃ _ : (∃ cl, cl ∈ dbB.clients ∧ cl.clientID = cId ∧
      cl.accountFBID = row.AccountFBID), True := by
    rcases get_or_create_client_ok h2 with
      ⟨-, ⟨r, hfr, hkr, rfl⟩ | ⟨-, -, hkr, rfl⟩⟩
    · have hp := List.find?_some hfr
      simp only [beq_iff_eq] at hp
      exact ⟨⟨r, List.mem_of_find?_eq_some hfr, hkr.symm, hp⟩, trivial⟩
    · subst hkr
      exact ⟨⟨{ clientID := dbA.nextClientID, accountFBID := row.AccountFBID,
                clientName := row.ClientName },
        by simp, rfl, rfl⟩, trivial⟩
  obtain ⟨eC1, eC2, eC3, eC4, eC5, eC6, eC7⟩ := get_or_create_campaign_frame h3
  have hcampaignsFrom : dbB.campaigns = db.campaigns := by rw [eB1, eA2]
  obtain ⟨hcampaign⟩ : ∃ _ : (∃ cp, cp ∈ dbC.campaigns ∧
      cp.campaignID = cpId ∧ cp.clientID = cId), True := by
    rcases get_or_create_campaign_ok h3 with
      ⟨-, ⟨r, hfr, -, rfl⟩ | ⟨-, -, hkcp, rfl⟩⟩
    · rw [hcampaignsFrom, hcp] at hfr
      cases hfr
    · subst hkcp
      exact ⟨⟨{ campaignID := dbB.nextCampaignID, clientID := cId,
                campaignFBID := row.CampaignFBID,
                campaignName := row.CampaignName,
                objective := row.Objective },
        by simp, rfl, rfl⟩, trivial⟩
  obtain ⟨eD1, eD2, eD3, eD4, eD5, eD6, eD7⟩ := get_or_create_adset_frame h4
  have hadSetsFrom : dbC.adSets = db.adSets := by rw [eC2, eB2, eA3]
  obtain ⟨hadset⟩ : ∃ _ : (∃ s, s ∈ dbD.adSets ∧ s.adSetID = asId ∧
      s.campaignID = cpId), True := by
    rcases get_or_create_adset_ok h4 with
      ⟨-, ⟨r, hfr, -, rfl⟩ | ⟨-, -, hkas, rfl⟩⟩
    · rw [hadSetsFrom, has] at hfr
      cases hfr
    · subst hkas
      exact ⟨⟨{ adSetID := dbC.nextAdSetID, campaignID := cpId,
                adSetFBID := row.AdSetFBID, adSetName := row.AdSetName },
        by simp, rfl, rfl⟩, trivial⟩
  obtain ⟨eE1, eE2, eE3, eE4, eE5, eE6, eE7⟩ := get_or_create_ad_frame h5
  have hadsFrom : dbD.ads = db.ads := by rw [eD3, eC3, eB3, eA4]
  obtain ⟨had5⟩ : ∃ _ : (∃ ad, ad ∈ dbE.ads ∧ ad.adID = aId ∧
      ad.adSetID = asId), True := by
    rcases get_or_create_ad_ok h5 with
      ⟨-, ⟨r, hfr, -, rfl⟩ | ⟨-, -, hkad, rfl⟩⟩
    · rw [hadsFrom, had] at hfr
      cases hfr
    · subst hkad
      exact ⟨⟨{ adID := dbD.nextAdID, adSetID := asId, adFBID := row.AdFBID,
                adName := row.AdName, adBody := row.AdBody,
                adThumbnailURL := row.AdThumbnailURL,
                permanentLink := row.PermanentLink },
        by simp, rfl, rfl⟩, trivial⟩
  obtain ⟨eF1, eF2, eF3, eF4, eF5, eF6, eF7⟩ := get_or_create_demographic_frame h6
  obtain ⟨eG1, eG2, eG3, eG4, eG5, eG6, eG7⟩ := get_or_create_placement_frame h7
  have hclientsTo : dbG.clients = dbB.clients := by rw [eG1, eF1, eE1, eD1, eC1]
  have hcampaignsTo : dbG.campaigns = dbC.campaigns := by rw [eG2, eF2, eE2, eD2]
  have hadSetsTo : dbG.adSets = dbD.adSets := by rw [eG3, eF3, eE3]
  have hadsTo : dbG.ads = dbE.ads := by rw [eG4, eF4]
  refine ⟨{ dateID := dId, clientID := cId, campaignID := cpId,
            adSetID := asId, adID := aId, demographicID := dmId,
            placementID := pId, measures := row.measures },
    ?_, ?_, ?_, ?_, ?_⟩
  · dsimp only
    exact List.getLast?_concat _
  · dsimp only
    rw [hadsTo]
    exact had5
  · dsimp only
    rw [hadSetsTo]
    exact hadset
  · dsimp only
    rw [hcampaignsTo]
    exact hcampaign
  · dsimp only
    rw [hclientsTo]
    exact hclient

/-- Witness for C5: importing `r1` into the empty warehouse creates all
hierarchy rows fresh, and the produced fact row's links are consistent. -/
theorem hierarchy_integrity_for_fresh_dimensions_witness :
    process_row okOracle db0 r1 = .ok db1ex ∧
    db0.campaigns.find? (fun r => r.campaignFBID == r1.CampaignFBID) = none ∧
    db0.adSets.find? (fun r => r.adSetFBID == r1.AdSetFBID) = none ∧
    db0.ads.find? (fun r => r.adFBID == r1.AdFBID) = none ∧
    (∃ f, db1ex.facts.getLast? = some f ∧
      (∃ ad, ad ∈ db1ex.ads ∧ ad.adID = f.adID ∧ ad.adSetID = f.adSetID) ∧
      (∃ s, s ∈ db1ex.adSets ∧ s.adSetID = f.adSetID ∧
        s.campaignID = f.campaignID) ∧
      (∃ cp, cp ∈ db1ex.campaigns ∧ cp.campaignID = f.campaignID ∧
        cp.clientID = f.clientID) ∧
      (∃ cl, cl ∈ db1ex.clients ∧ cl.clientID = f.clientID ∧
        cl.accountFBID = r1.AccountFBID)) :=
  ⟨by decide, by decide, by decide, by decide,
    hierarchy_integrity_for_fresh_dimensions okOracle db0 r1 db1ex
      (by decide) (by decide) (by decide) (by decide)⟩

/-- C6: the derived date key is `year*10000 + month*100 + day` for every
calendar date; every successful resolution of a date returns exactly that
key, whatever the store state; and repeated resolutions insert at most one
`dim_Date` row with that key. -/
theorem date_key_deterministic :
    (∀ y m d w : Nat, 1 ≤ y → y ≤ 9999 → 1 ≤ m → m ≤ 12 → 1 ≤ d → d ≤ 31 →
      dateKey ⟨y, m, d, w⟩ = y * 10000 + m * 100 + d) ∧
    (∀ (o : Oracle) (db : Db) (fd : Date) (k : Nat) (db' : Db),
      get_or_create_date o db (some fd) = .ok (k, db') → k = dateKey fd) ∧
    ResolveIdemDate := by
  refine ⟨?_, ?_, resolveIdem_date⟩
  · intro y m d w hy1 hy hm1 hm hd1 hd
    show pyIntOfDigits (yearDigits y ++ pad2 m ++ pad2 d) = _
    rw [pyIntOfDigits_append, pyIntOfDigits_append,
      pyIntOfDigits_yearDigits y hy]
    simp only [pad2, List.foldl_cons, List.foldl_nil]
    omega
  · intro o db fd k db' h
    exact (get_or_create_date_ok h).1

/-- Witness for C6: 2024-03-07 derives key 20240307 and its resolution
returns that key. -/
theorem date_key_deterministic_witness :
    dateKey d1 = 2024 * 10000 + 3 * 100 + 7 ∧
    get_or_create_date okOracle db0 (some d1) = .ok (20240307, dbDate1) ∧
    (20240307 : Nat) = dateKey d1 :=
  ⟨date_key_deterministic.1 2024 3 7 3 (by decide) (by decide) (by decide)
      (by decide) (by decide) (by decide),
    by decide,
    date_key_deterministic.2.1 okOracle db0 d1 20240307 dbDate1 (by decide)⟩

/-- C7 counterexample: two stores failing in different dimensions (the client
lookup vs. the campaign lookup) with the same pyodbc payload produce
literally identical runs — same committed store, same printed lines, same
outcome — so the error reaching the record-level handler carries neither a
dimension type nor a natural key. -/
theorem resolution_error_carries_no_dimension_info :
    mainImport failClientSelect db0 [r1] =
      mainImport failCampaignSelect db0 [r1] ∧
    get_or_create_client failClientSelect db0 r1.AccountFBID r1.ClientName =
      .error (Err.dbErr 7) ∧
    (∃ k db', get_or_create_client failCampaignSelect db0 r1.AccountFBID
      r1.ClientName = .ok (k, db')) :=
  ⟨by decide, by decide,
    ⟨1, { db0 with
          clients := [{ clientID := 1, accountFBID := 1, clientName := none }],
          nextClientID := 2 },
      by decide⟩⟩

/-- C7 amended: a storage failure during a record's processing reaches the
record-level handler as the raw pyodbc error alone; the handler records the
record's position and that raw payload and the run continues, with no
dimension type or natural key attached. -/
theorem resolution_error_reaches_handler_raw (o : Oracle) (db : Db)
    (row : Record) (e : Nat)
    (h : process_row o db row = .error (.dbErr e)) :
    mainImport o db [row] =
      (db, [Msg.procesando 1 1, Msg.errorEnFila 1 e,
        Msg.importacionCompletada], none) := by
  simp [mainImport, runLoop, h]

/-- Witness for C7: the failing client lookup surfaces as the raw payload 7
at position 1. -/
theorem resolution_error_reaches_handler_raw_witness :
    process_row failClientSelect db0 r1 = .error (.dbErr 7) ∧
    mainImport failClientSelect db0 [r1] =
      (db0, [Msg.procesando 1 1, Msg.errorEnFila 1 7,
        Msg.importacionCompletada], none) :=
  ⟨by decide,
    resolution_error_reaches_handler_raw failClientSelect db0 r1 7 (by decide)⟩

/-- C8 counterexample: a fully successful one-record run and a one-record run
with a failure both end with the identical fixed completion line; the failed
counts differ (0 vs. 1) yet the final emission is the same, so no final
summary carrying the succeeded/failed counts and the failure list exists. -/
theorem no_final_summary_with_counts :
    (mainImport okOracle db0 [r1]).2.1.getLast? =
      some Msg.importacionCompletada ∧
    (mainImport failFactInsert db0 [r1]).2.1.getLast? =
      some Msg.importacionCompletada ∧
    numErrorLines (mainImport okOracle db0 [r1]).2.1 = 0 ∧
    numErrorLines (mainImport failFactInsert db0 [r1]).2.1 = 1 := by decide

/-- Shape of the loop's own output: it never prints the completion line, and
every inline error line names a position inside the processed range. -/
theorem runLoop_log_shape (o : Oracle) (total : Nat) (rows : List Record) :
    ∀ (idx : Nat) (db : Db),
      Msg.importacionCompletada ∉ (runLoop o total idx db rows).2.1 ∧
      ∀ i e, Msg.errorEnFila i e ∈ (runLoop o total idx db rows).2.1 →
        idx ≤ i ∧ i < idx + rows.length := by
  induction rows with
  | nil =>
    intro idx db
    simp [runLoop]
  | cons row rest ih =>
    intro idx db
    cases hp : process_row o db row with
    | ok db' =>
      simp only [runLoop, hp]
      constructor
      · intro hmem
        rcases List.mem_cons.mp hmem with hcontra | hmem2
        · cases hcontra
        · exact (ih (idx + 1) db').1 hmem2
      · intro i e hmem
        rcases List.mem_cons.mp hmem with hcontra | hmem2
        · cases hcontra
        · have := (ih (idx + 1) db').2 i e hmem2
          simp only [List.length_cons]
          omega
    | error err =>
      cases err with
      | dbErr e0 =>
        simp only [runLoop, hp]
        constructor
        · intro hmem
          rcases List.mem_cons.mp hmem with hcontra | hmem2
          · cases hcontra
          · rcases List.mem_cons.mp hmem2 with hcontra | hmem3
            · cases hcontra
            · exact (ih (idx + 1) db).1 hmem3
        · intro i e hmem
          rcases List.mem_cons.mp hmem with hcontra | hmem2
          · cases hcontra
          · rcases List.mem_cons.mp hmem2 with heq | hmem3
            · cases heq
              simp only [List.length_cons]
              omega
            · have := (ih (idx + 1) db).2 i e hmem3
              simp only [List.length_cons]
              omega
      | valueErr =>
        simp only [runLoop, hp]
        constructor
        · intro hmem
          rcases List.mem_cons.mp hmem with hcontra | hmem2
          · cases hcontra
          · cases hmem2
        · intro i e hmem
          rcases List.mem_cons.mp hmem with hcontra | hmem2
          · cases hcontra
          · cases hmem2

/-- C8 amended: a run that completes (no uncaught exception) prints the fixed
completion line exactly once, as its very last line; failure information
appears only as inline per-record error lines, each naming a 1-based position
within the batch and the raw cause; the final line itself carries no counts
and no failure list (it is identical whatever the counts, see the
counterexample). -/
theorem run_output_shape (o : Oracle) (db : Db) (rows : List Record)
    (hc : (mainImport o db rows).2.2 = none) :
    (mainImport o db rows).2.1.getLast? = some Msg.importacionCompletada ∧
    (mainImport o db rows).2.1.count Msg.importacionCompletada = 1 ∧
    ∀ i e, Msg.errorEnFila i e ∈ (mainImport o db rows).2.1 →
      1 ≤ i ∧ i ≤ rows.length := by
  have hs := runLoop_log_shape o rows.length rows 1 db
  unfold mainImport at hc ⊢
  dsimp only at hc ⊢
  rw [hc]
  refine ⟨List.getLast?_concat _, ?_, ?_⟩
  · rw [List.count_append]
    rw [List.count_eq_zero.mpr hs.1]
    rfl
  · intro i e hmem
    rcases List.mem_append.mp hmem with hmem1 | hmem2
    · have := hs.2 i e hmem1
      omega
    · rcases List.mem_cons.mp hmem2 with hcontra | hmem3
      · cases hcontra
      · cases hmem3

/-- Witness for C8: a completed one-record run with one failure satisfies the
output shape. -/
theorem run_output_shape_witness :
    (mainImport failFactInsert db0 [r1]).2.2 = none ∧
    ((mainImport failFactInsert db0 [r1]).2.1.getLast? =
        some Msg.importacionCompletada ∧
      (mainImport failFactInsert db0 [r1]).2.1.count
        Msg.importacionCompletada = 1 ∧
      ∀ i e, Msg.errorEnFila i e ∈ (mainImport failFactInsert db0 [r1]).2.1 →
        1 ≤ i ∧ i ≤ ([r1] : List Record).length) :=
  ⟨by decide, run_output_shape failFactInsert db0 [r1] (by decide)⟩

/-- A NULL parameter on the right of a SQL equality filter selects nothing. -/
theorem sqlEqStr_none_right (a : Option String) : sqlEqStr a none = false := by
  cases a <;> rfl

/-- C9: when any component of the demographic or placement composite natural
key is null, the SQL lookup matches no existing row — even one holding
exactly the same (null) values — so the call always inserts a fresh row and
returns a fresh surrogate key. -/
theorem null_composite_key_always_inserts :
    (∀ (o : Oracle) (db : Db) (a g : Option String),
      (a = none ∨ g = none) →
      o (SqlOp.selectDemographic a g) = none →
      o (SqlOp.insertDemographic a g) = none →
      get_or_create_demographic o db a g =
        .ok (db.nextDemographicID,
          { db with
            demographics := db.demographics ++
              [{ demographicID := db.nextDemographicID, ageBracket := a,
                 gender := g }],
            nextDemographicID := db.nextDemographicID + 1 })) ∧
    (∀ (o : Oracle) (db : Db) (p dv ps : Option String),
      (p = none ∨ dv = none ∨ ps = none) →
      o (SqlOp.selectPlacement p dv ps) = none →
      o (SqlOp.insertPlacement p dv ps) = none →
      get_or_create_placement o db p dv ps =
        .ok (db.nextPlacementID,
          { db with
            placements := db.placements ++
              [{ placementID := db.nextPlacementID, platform := p,
                 device := dv, position := ps }],
            nextPlacementID := db.nextPlacementID + 1 })) := by
  constructor
  · intro o db a g hnull hsel hins
    have hfind : db.demographics.find?
        (fun r => sqlEqStr r.ageBracket a && sqlEqStr r.gender g) = none := by
      rw [List.find?_eq_none]
      intro r hr
      rcases hnull with rfl | rfl <;> simp [sqlEqStr_none_right]
    simp only [get_or_create_demographic, hsel, hfind, hins]
  · intro o db p dv ps hnull hsel hins
    have hfind : db.placements.find?
        (fun r => sqlEqStr r.platform p && sqlEqStr r.device dv &&
          sqlEqStr r.position ps) = none := by
      rw [List.find?_eq_none]
      intro r hr
      rcases hnull with rfl | rfl | rfl <;> simp [sqlEqStr_none_right]
    simp only [get_or_create_placement, hsel, hfind, hins]

/-- Witness for C9: with an identical all-NULL demographic row already in the
store, the call still inserts a second row and returns the fresh key 2. -/
theorem null_composite_key_always_inserts_witness :
    ((none : Option String) = none ∨ (none : Option String) = none) ∧
    okOracle (SqlOp.selectDemographic none none) = none ∧
    okOracle (SqlOp.insertDemographic none none) = none ∧
    get_or_create_demographic okOracle dbDemo1 none none =
      .ok (dbDemo1.nextDemographicID,
        { dbDemo1 with
          demographics := dbDemo1.demographics ++
            [{ demographicID := dbDemo1.nextDemographicID, ageBracket := none,
               gender := none }],
          nextDemographicID := dbDemo1.nextDemographicID + 1 }) :=
  ⟨Or.inl rfl, rfl, rfl,
    null_composite_key_always_inserts.1 okOracle dbDemo1 none none
      (Or.inl rfl) rfl rfl⟩

/-- C10: when a row with the given FBID already exists, campaign, ad-set and
ad resolution are independent of the parent surrogate-key argument and of all
attribute arguments: two calls differing only in those return identical
results (same key, same store). -/
theorem existing_fbid_resolution_ignores_parent_and_attributes :
    (∀ (o : Oracle) (db : Db) (cid1 cid2 : Nat) (a : Int)
      (n1 n2 ob1 ob2 : Option String),
      (db.campaigns.find? (fun r => r.campaignFBID == a)).isSome →
      get_or_create_campaign o db cid1 a n1 ob1 =
        get_or_create_campaign o db cid2 a n2 ob2) ∧
    (∀ (o : Oracle) (db : Db) (cid1 cid2 : Nat) (a : Int)
      (n1 n2 : Option String),
      (db.adSets.find? (fun r => r.adSetFBID == a)).isSome →
      get_or_create_adset o db cid1 a n1 =
        get_or_create_adset o db cid2 a n2) ∧
    (∀ (o : Oracle) (db : Db) (sid1 sid2 : Nat) (a : Int)
      (n1 n2 b1 b2 t1 t2 l1 l2 : Option String),
      (db.ads.find? (fun r => r.adFBID == a)).isSome →
      get_or_create_ad o db sid1 a n1 b1 t1 l1 =
        get_or_create_ad o db sid2 a n2 b2 t2 l2) := by
  refine ⟨?_, ?_, ?_⟩
  · intro o db cid1 cid2 a n1 n2 ob1 ob2 hsome
    obtain ⟨r, hr⟩ := Option.isSome_iff_exists.mp hsome
    unfold get_or_create_campaign
    cases o (SqlOp.selectCampaign a) with
    | some e => rfl
    | none => rw [hr]
  · intro o db cid1 cid2 a n1 n2 hsome
    obtain ⟨r, hr⟩ := Option.isSome_iff_exists.mp hsome
    unfold get_or_create_adset
    cases o (SqlOp.selectAdSet a) with
    | some e => rfl
    | none => rw [hr]
  · intro o db sid1 sid2 a n1 n2 b1 b2 t1 t2 l1 l2 hsome
    obtain ⟨r, hr⟩ := Option.isSome_iff_exists.mp hsome
    unfold get_or_create_ad
    cases o (SqlOp.selectAd a) with
    | some e => rfl
    | none => rw [hr]

/-- Witness for C10: with campaign FBID 10 present, resolving it under parent
1 with null attributes and under parent 99 with other attributes gives
identical results. -/
theorem existing_fbid_resolution_ignores_parent_and_attributes_witness :
    (dbCamp1.campaigns.find? (fun r => r.campaignFBID == (10 : Int))).isSome ∧
    get_or_create_campaign okOracle dbCamp1 1 10 none none =
      get_or_create_campaign okOracle dbCamp1 99 10 (some "other")
        (some "conversions") :=
  ⟨by decide,
    existing_fbid_resolution_ignores_parent_and_attributes.1 okOracle dbCamp1
      1 99 10 none (some "other") none (some "conversions") (by decide)⟩
